import Mathlib

/-!
Verification of the AtScale semantic-layer helper library
(atscale_local/data_model/data_model_helpers.py,
atscale_local/utils/query_utils.py, atscale_local/parsers/dictionary_parser.py):
feature-catalog resolution with roleplay propagation, join validation,
perspective building and query compilation.

Python dictionaries are embedded as insertion-ordered association lists with
unique keys; Python sets iterate in an unspecified order and are embedded as
insertion-ordered duplicate-free lists.  Fallible dictionary/list subscripts
are embedded with Except where a claim can reach them; a handful of subscripts
that only an ill-formed descriptor reaches (noted inline) are embedded with a
default value.
-/

/-- Errors raised by the embedded Python code. -/
inductive PyError where
  | UserError (msg : String)
  | ValueError (msg : String)
  | KeyError (key : String)
  | IndexError (msg : String)
  | ExceptionErr (msg : String)
  deriving Repr, DecidableEq

/-- Lookup in an association list embedding a Python dict (dict.get(k)). -/
def alGet? {α : Type} (m : List (String × α)) (k : String) : Option α :=
  (m.find? (fun kv => kv.1 == k)).map (fun kv => kv.2)

/-- Python dict.get(k, d). -/
def alGetD {α : Type} (m : List (String × α)) (k : String) (d : α) : α :=
  (alGet? m k).getD d

/-- Python `k in m` for a dict. -/
def alContains {α : Type} (m : List (String × α)) (k : String) : Bool :=
  m.any (fun kv => kv.1 == k)

/-- Python dict assignment m[k] = v: replace in place, or append a new key. -/
def alSet {α : Type} (m : List (String × α)) (k : String) (v : α) : List (String × α) :=
  if alContains m k then m.map (fun kv => if kv.1 == k then (k, v) else kv)
  else m ++ [(k, v)]

/-- Python m.setdefault(k, []); m[k].append(v). -/
def alAppendAt {α : Type} (m : List (String × List α)) (k : String) (v : α) :
    List (String × List α) :=
  if alContains m k then m.map (fun kv => if kv.1 == k then (kv.1, kv.2 ++ [v]) else kv)
  else m ++ [(k, [v])]

/-- The keys of a dict, in insertion order. -/
def alKeys {α : Type} (m : List (String × α)) : List String := m.map (fun kv => kv.1)

/-- Python len(m) for a dict; the association lists built here have unique keys. -/
def alSize {α : Type} (m : List (String × α)) : Nat := m.length

/-- Python m.update(new): existing keys keep their position and take the new
value, fresh keys are appended in the order of `new`. -/
def alUpdate {α : Type} (m new : List (String × α)) : List (String × α) :=
  new.foldl (fun m kv => alSet m kv.1 kv.2) m

/-- Python truthiness of an optional string: None and the empty string are falsy. -/
def truthyStr? : Option String → Bool
  | some s => s ≠ ""
  | none => false

/-- Consume the first list from the front of the second, if it leads it. -/
def stripLead : List Char → List Char → Option (List Char)
  | [], l => some l
  | _ :: _, [] => none
  | a :: as, b :: bs => if a == b then stripLead as bs else none

/-- Left-to-right non-overlapping replacement of a non-empty pattern; the
fuel is the input length, enough for every step to consume a character. -/
def replFuel (pat rep : List Char) : Nat → List Char → List Char
  | 0, l => l
  | _ + 1, [] => []
  | fuel + 1, c :: rest =>
    match stripLead pat (c :: rest) with
    | some remainder => rep ++ replFuel pat rep fuel remainder
    | none => c :: replFuel pat rep fuel rest

/-- Replace only the first occurrence. -/
def replFirstFuel (pat rep : List Char) : Nat → List Char → List Char
  | 0, l => l
  | _ + 1, [] => []
  | fuel + 1, c :: rest =>
    match stripLead pat (c :: rest) with
    | some remainder => rep ++ remainder
    | none => c :: replFirstFuel pat rep fuel rest

/-- Python str.replace with count=1: replace the first occurrence only (the
source only ever passes the non-empty pattern "{0}"). -/
def pyReplaceFirst (s pat rep : String) : String :=
  ⟨replFirstFuel pat.data rep.data s.data.length s.data⟩

/-- Python str.replace: replace all occurrences left to right, non-overlapping
(the source only ever passes the non-empty pattern "{0}"). -/
def pyReplaceAll (s pat rep : String) : String :=
  ⟨replFuel pat.data rep.data s.data.length s.data⟩

/-- Python str.upper for the ASCII strings compared here. -/
def pyToUpper (s : String) : String := ⟨s.data.map Char.toUpper⟩

/-- Python repr of a list of strings, e.g. ['a', 'b']. -/
def pyReprStrList (xs : List String) : String :=
  "[" ++ String.intercalate ", " (xs.map (fun s => "'" ++ s ++ "'")) ++ "]"

/-- A set.add embedded on an insertion-ordered duplicate-free list. -/
def addUniq (l : List String) (x : String) : List String :=
  if l.contains x then l else l ++ [x]

/-- Drop duplicates keeping the first occurrence (query_utils lines 135-150). -/
def dedupFirst (l : List String) : List String :=
  (l.foldl (fun (st : List String × List String) f =>
    if st.2.contains f then st else (st.1 ++ [f], st.2 ++ [f])) ([], [])).1

/-! ## Project-descriptor data model

Embeds the JSON shapes of the raw project descriptor exactly as the source
reads them; field names follow the JSON keys. -/

/-- The properties of a hierarchy level ("properties" object of a level). -/
structure LevelProps where
  visible : Option Bool := none
  levelType : Option String := none
  deriving Repr, DecidableEq

/-- A keyed-attribute-ref entry attached to a level (a secondary attribute). -/
structure KeyedAttributeRef where
  attributeId : String
  refId : Option String := none
  /-- properties.ref-path.new-ref as (ref-naming, ref-id). -/
  refPath : Option (String × String) := none
  deriving Repr, DecidableEq

/-- An attribute-ref entry attached to a level (a metrical secondary attribute). -/
structure AttributeRef where
  attributeId : String
  refId : Option String := none
  deriving Repr, DecidableEq

/-- A level of a hierarchy. -/
structure PLevel where
  primaryAttribute : String
  properties : Option LevelProps := none
  keyedAttributeRef : Option (List KeyedAttributeRef) := none
  attributeRef : Option (List AttributeRef) := none
  deriving Repr, DecidableEq

/-- A hierarchy of a dimension; folder is properties.folder. -/
structure PHierarchy where
  id : String := ""
  name : String
  folder : Option String := none
  level : List PLevel := []
  deriving Repr, DecidableEq

/-- A dimension of the project or of a cube. -/
structure PDimension where
  id : String := ""
  name : String
  hierarchy : List PHierarchy := []
  deriving Repr, DecidableEq

/-- The properties.type object of an attribute, as read by _get_agg_type:
count-nonnull wins, then count-distinct (with its approximate flag), then
measure.default-aggregation. -/
structure AggProps where
  countNonnull : Bool := false
  countDistinct : Option Bool := none
  measureDefault : Option String := none
  deriving Repr, DecidableEq

/-- A keyed-attribute or (metrical) attribute definition.  caption, description
and folder live under "properties" in the JSON; caption is read by direct
subscript in the source, description and folder through .get. -/
structure PAttribute where
  id : String
  name : String
  keyRef : Option String := none
  caption : String := ""
  description : Option String := none
  folder : Option String := none
  aggProps : AggProps := {}
  deriving Repr, DecidableEq

/-- The project-level "attributes" object. -/
structure ProjAttributes where
  keyedAttribute : Option (List PAttribute) := none
  attributeDef : Option (List PAttribute) := none
  deriving Repr, DecidableEq

/-- A logical key-ref of a data-set-ref; refPath is ref-path.new-ref as
(ref-naming, ref-id). -/
structure KeyRef where
  id : String
  complete : String := "true"
  refPath : Option (String × String) := none
  deriving Repr, DecidableEq

/-- A data-set-ref of a cube; keyRef is logical.key-ref. -/
structure DataSetRef where
  keyRef : Option (List KeyRef) := none
  deriving Repr, DecidableEq

/-- A calculated-member definition; caption/description/folder live under
"properties" and are only read through .get with these defaults. -/
structure CalcMember where
  id : String
  name : String
  caption : String := ""
  description : Option String := none
  folder : Option String := none
  expression : Option String := none
  deriving Repr, DecidableEq

/-- The cube-level "attributes" object. -/
structure CubeAttributes where
  attributeDef : Option (List PAttribute) := none
  keyedAttribute : Option (List PAttribute) := none
  deriving Repr, DecidableEq

/-- A flat-level-ref node of a perspective. -/
structure FlatLevelRef where
  primaryAttribute : String
  visible : Bool := false
  deriving Repr, DecidableEq

/-- A flat-hierarchy-ref node of a perspective. -/
structure FlatHierRef where
  id : String
  flatLevelRef : Option (List FlatLevelRef) := none
  visible : Bool := true
  deriving Repr, DecidableEq

/-- A flat-dimension-ref node of a perspective; refPath embeds
ref-path.ref[0].id, none meaning no ref-path key. -/
structure FlatDimRef where
  id : String
  refPath : Option String := none
  flatHierarchyRef : Option (List FlatHierRef) := none
  visible : Bool := false
  deriving Repr, DecidableEq

/-- A flat-attribute-ref node (hidden measure or secondary attribute); refPath
none embeds the empty ref-path object. -/
structure MeasureNode where
  id : String
  visible : Bool := false
  refPath : Option String := none
  deriving Repr, DecidableEq

/-- A calculated-member-ref node of a perspective. -/
structure CalcNode where
  id : String
  visible : Bool := false
  deriving Repr, DecidableEq

/-- A perspective document; the Option fields embed the presence of the
calculated-member-ref / flat-attribute-ref keys inside their objects. -/
structure PerspectiveDoc where
  cubeRef : String := ""
  id : String
  name : String
  calculatedMembers : Option (List CalcNode) := none
  flatAttributes : Option (List MeasureNode) := none
  flatDimensions : List FlatDimRef := []
  deriving Repr, DecidableEq

/-- A cube of the project. -/
structure Cube where
  id : String := ""
  name : String
  dataSets : List DataSetRef := []
  attributes : Option CubeAttributes := none
  /-- ids listed under calculated-members.calculated-member-ref. -/
  calculatedMemberRef : List String := []
  dimensions : List PDimension := []
  deriving Repr, DecidableEq

/-- The raw project descriptor, with exactly the parts the helpers read. -/
structure ProjectDict where
  attributes : Option ProjAttributes := none
  cubes : List Cube := []
  dimensions : List PDimension := []
  calculatedMembers : List CalcMember := []
  perspectives : Option (List PerspectiveDoc) := none
  deriving Repr, DecidableEq

/-! ## dictionary_parser.py -/

/-- A generic Python dict with string values, for _find_by_id_or_name. -/
abbrev Pydict := List (String × String)

/-- The scan loop of _find_by_id_or_name (dictionary_parser lines 66-70):
item[key] raises KeyError when an element lacks the key; the for-else returns
the empty dict when nothing matches. -/
def findFirstItem : List Pydict → String → String → Except PyError Pydict
  | [], _, _ => .ok []
  | item :: rest, key, val =>
    match alGet? item key with
    | none => .error (.KeyError key)
    | some v => if v == val then .ok item else findFirstItem rest key val

/-- dictionary_parser._find_by_id_or_name (lines 49-70): an explicit item_id
selects the id_key (item_name is ignored); with neither an id nor a name a
plain Exception is raised. -/
def _find_by_id_or_name (item_list : List Pydict) (item_id item_name : Option String)
    (id_key name_key : String) : Except PyError Pydict := do
  let kv ← match item_id, item_name with
    | some v, _ => Except.ok (id_key, v)
    | none, some v => Except.ok (name_key, v)
    | none, none =>
      Except.error
        (.ExceptionErr "Either an id or name must be passed in order to identify the item")
  findFirstItem item_list kv.1 kv.2

/-! ## data_model_helpers.py: aggregation types -/

/-- Modelled from the spec: the external Aggs enum of atscale.base.enums maps
an aggregation code to its visual representation; the mapping itself is not in
this repository, so it is embedded as the identity on the code. -/
def aggsVisualRep (s : String) : String := s

/-- data_model_helpers._get_agg_type (lines 345-365). -/
def _get_agg_type (a : PAttribute) : String :=
  if a.aggProps.countNonnull then aggsVisualRep "NDC"
  else match a.aggProps.countDistinct with
    | some approx => if approx then aggsVisualRep "DCE" else aggsVisualRep "DC"
    | none => aggsVisualRep (a.aggProps.measureDefault.getD "Aggregate")

/-! ## data_model_helpers._parse_categorical_features: roleplay propagation -/

/-- The roleplay-id table: attribute id to its list of (template, ref-id) pairs. -/
abbrev RpTable := List (String × List (String × String))

/-- Lines 394-409: collect roleplay refs from incomplete dataset join keys. -/
def buildRoleplayRefs (cube : Cube) : RpTable :=
  cube.dataSets.foldl (fun acc dataset =>
    match dataset.keyRef with
    | none => acc
    | some keys => keys.foldl (fun acc key =>
        if key.complete == "false" then
          let val := match key.refPath with
            | some nr => nr
            | none => ("{0}", "")
          alAppendAt acc key.id val
        else acc) acc) []

/-- Lines 410-414: seed roleplay ids from keyed attributes whose key-ref has
roleplay refs (key_ref.get("key-ref") is truthy and present in the table). -/
def buildRoleplayIds (keyedAttrs : List PAttribute) (roleplayRefs : RpTable) : RpTable :=
  keyedAttrs.foldl (fun acc ka =>
    match ka.keyRef with
    | some kr =>
      if kr ≠ "" && alContains roleplayRefs kr then alSet acc ka.id (alGetD roleplayRefs kr [])
      else acc
    | none => acc) []

/-- Lines 430-443: compose a parent template with a child reference; the parent
template's first "{0}" is replaced by the child's ref-naming. -/
def composeRef (rp : String × String) (refPath : Option (String × String)) : String × String :=
  match refPath with
  | some nr => (pyReplaceFirst rp.1 "{0}" nr.1, nr.2)
  | none => (rp.1, "")

/-- Line 426: children are processed only when the level has a properties
object whose visible flag (default True) is truthy. -/
def levelVisible (l : PLevel) : Bool :=
  match l.properties with
  | some p => p.visible.getD true
  | none => false

/-- Lines 423-452 for a single level, with last_run = False (the loop exits as
soon as last_run is set, so the last_run = True branch is dead code): when the
level's primary attribute is in the table and the level is visible, every
keyed-attribute-ref child gains one composed pair per parent pair, then every
attribute-ref child gains one (template, "") pair per parent pair. -/
def rpPassLevel (t : RpTable) (l : PLevel) : RpTable :=
  if alContains t l.primaryAttribute then
    let base := alGetD t l.primaryAttribute [("{0}", "")]
    if levelVisible l then
      let t := match l.keyedAttributeRef with
        | some keys => keys.foldl (fun t key =>
            base.foldl (fun t rp => alAppendAt t key.attributeId (composeRef rp key.refPath)) t) t
        | none => t
      match l.attributeRef with
      | some keys => keys.foldl (fun t key =>
          base.foldl (fun t rp => alAppendAt t key.attributeId (rp.1, "")) t) t
      | none => t
    else t
  else t

/-- Lines 421-452: one full pass of the propagation loop over all dimensions. -/
def rpPass (dims : List PDimension) (t : RpTable) : RpTable :=
  dims.foldl (fun t d => d.hierarchy.foldl (fun t h => h.level.foldl rpPassLevel t) t) t

/-- The total number of child references in the dimension forest: every pass
that does not reach the fixed point adds at least one new key, and every
addable key is the attribute-id of some child reference, so this plus one
bounds the number of passes. -/
def rpRefCount (dims : List PDimension) : Nat :=
  dims.foldl (fun n d => d.hierarchy.foldl (fun n h => h.level.foldl (fun n l =>
    n + (l.keyedAttributeRef.getD []).length + (l.attributeRef.getD []).length) n) n) 0

/-- Lines 417-456: iterate rpPass until a pass adds no new id (the loop
compares len(roleplay_ids) before and after a pass and stops at equality). -/
def rpFixpoint (dims : List PDimension) (t : RpTable) : Nat → RpTable
  | 0 => t
  | fuel + 1 =>
    let t' := rpPass dims t
    if alSize t' == alSize t then t' else rpFixpoint dims t' fuel

/-! ## data_model_helpers._parse_categorical_features: emission walk -/

/-- One entry of dim_to_id_dict: a Python dict whose key set differs between
the primary-level, secondary-attribute and metrical emission paths, embedded
with one optional field per possible key. -/
structure RoleplayingDict where
  level_type : Option String := none
  id : String := ""
  roleplay_expression : Option String := none
  roleplay_ref_id : Option String := none
  roleplayed_name : String := ""
  folder : Option (List String) := none
  queryable : Option Bool := none
  roleplayed_hierarchy : Option (List String) := none
  roleplayed_dimension : Option String := none
  roleplayed_caption : Option String := none
  base_name : Option String := none
  base_hierarchy : Option (List String) := none
  base_dimension : Option String := none
  secondary_attribute : Option Bool := none
  feature_type : Option String := none
  deriving Repr, DecidableEq

/-- The merge rule of lines 529-534 for one list-valued field: a non-empty
current value is extended, otherwise the new value overwrites. -/
def extendListField (old new : Option (List String)) : Option (List String) :=
  match new with
  | some n => match old with
    | some o => if o ≠ [] then some (o ++ n) else some n
    | none => some n
  | none => old

/-- The merge rule of lines 529-534 for a scalar field: a value carried by the
new entry overwrites, a field the new entry does not carry is kept. -/
def overwriteOpt {α : Type} (old new : Option α) : Option α :=
  match new with
  | some v => some v
  | none => old

/-- Lines 529-534: merge a new primary-level entry into the existing entry
with the same resolved name. -/
def mergeRoleplaying (old new : RoleplayingDict) : RoleplayingDict where
  level_type := overwriteOpt old.level_type new.level_type
  id := new.id
  roleplay_expression := overwriteOpt old.roleplay_expression new.roleplay_expression
  roleplay_ref_id := overwriteOpt old.roleplay_ref_id new.roleplay_ref_id
  roleplayed_name := new.roleplayed_name
  folder := extendListField old.folder new.folder
  queryable := overwriteOpt old.queryable new.queryable
  roleplayed_hierarchy := extendListField old.roleplayed_hierarchy new.roleplayed_hierarchy
  roleplayed_dimension := overwriteOpt old.roleplayed_dimension new.roleplayed_dimension
  roleplayed_caption := overwriteOpt old.roleplayed_caption new.roleplayed_caption
  base_name := overwriteOpt old.base_name new.base_name
  base_hierarchy := extendListField old.base_hierarchy new.base_hierarchy
  base_dimension := overwriteOpt old.base_dimension new.base_dimension
  secondary_attribute := old.secondary_attribute
  feature_type := old.feature_type

/-- A ref_ids table entry: the raw attribute plus, for metrical attributes,
the level-type / feature-type fields written at lines 469-471. -/
structure RefEntry where
  attr : PAttribute
  levelType : Option String := none
  featureType : Option String := none
  deriving Repr, DecidableEq

/-- A placeholder attribute: looking it up means the source would have raised
KeyError on an ill-formed descriptor (never reached by a descriptor whose
levels reference declared attributes). -/
def defaultAttr : PAttribute := { id := "", name := "" }

/-- Lines 497-536: build one primary-level roleplaying dict and insert or
merge it into dim_to_id_dict under its resolved name. -/
def emitPrimary (refIds : List (String × RefEntry)) (infoDict : List (String × PAttribute))
    (dimName hierName thisFolder : String) (l : PLevel) (queryable : Bool)
    (role refId : String) (d : List (String × RoleplayingDict)) :
    List (String × RoleplayingDict) :=
  let pa := (alGetD refIds l.primaryAttribute ⟨defaultAttr, none, none⟩).attr
  let levelType := match l.properties with
    | some p => match p.levelType with
      | some s => if s ≠ "" then s else "Regular"
      | none => "Regular"
    | none => "Regular"
  let rpName := pyReplaceAll role "{0}" pa.name
  let rpHier := pyReplaceAll role "{0}" hierName
  let caption := (alGetD infoDict pa.id defaultAttr).caption
  let rd : RoleplayingDict := {
    level_type := some levelType
    id := pa.id
    roleplay_expression := some role
    roleplay_ref_id := some refId
    roleplayed_name := rpName
    folder := some [thisFolder]
    queryable := some queryable
    roleplayed_hierarchy := some [rpHier]
    roleplayed_dimension := some (pyReplaceAll role "{0}" dimName)
    roleplayed_caption := some (pyReplaceAll role "{0}" caption)
    base_name := some pa.name
    base_hierarchy := some [hierName]
    base_dimension := some dimName }
  match alGet? d rpName with
  | some old =>
    if (old.roleplayed_hierarchy.getD []).contains rpHier then d
    else alSet d rpName (mergeRoleplaying old rd)
  | none => alSet d rpName rd

/-- Lines 551-585: build one secondary-attribute roleplaying dict (plain
overwrite; note line 567 substitutes the attribute name, not the hierarchy
name, into roleplayed_hierarchy). -/
def emitSecondary (refIds : List (String × RefEntry)) (infoDict : List (String × PAttribute))
    (dimName hierName thisFolder : String) (attrId : String) (queryable : Bool)
    (role refId : String) (d : List (String × RoleplayingDict)) :
    List (String × RoleplayingDict) :=
  let re := alGetD refIds attrId ⟨defaultAttr, none, none⟩
  let nm := re.attr.name
  let rpName := pyReplaceAll role "{0}" nm
  let caption := (alGetD infoDict re.attr.id defaultAttr).caption
  let rd : RoleplayingDict := {
    id := re.attr.id
    roleplayed_name := rpName
    folder := some (match re.attr.folder with | some f => [f] | none => [thisFolder])
    queryable := some queryable
    roleplay_expression := some role
    roleplay_ref_id := some refId
    roleplayed_hierarchy := some [pyReplaceAll role "{0}" nm]
    roleplayed_dimension := some (pyReplaceAll role "{0}" dimName)
    roleplayed_caption := some (pyReplaceAll role "{0}" caption)
    base_name := some nm
    base_hierarchy := some [hierName]
    base_dimension := some dimName
    secondary_attribute := some true }
  alSet d rpName rd

/-- Lines 597-629: build one metrical secondary-attribute roleplaying dict
(level-type and feature-type come from the metrical ref entry; the source
subscripts them, so an attribute-ref to a non-metrical attribute would raise
KeyError - embedded with a default that a well-formed descriptor never hits). -/
def emitMetrical (refIds : List (String × RefEntry)) (infoDict : List (String × PAttribute))
    (thisFolder : String) (attrId : String) (queryable : Bool)
    (role refId : String) (d : List (String × RoleplayingDict)) :
    List (String × RoleplayingDict) :=
  let re := alGetD refIds attrId ⟨defaultAttr, none, none⟩
  let nm := re.attr.name
  let caption := (alGetD infoDict re.attr.id defaultAttr).caption
  let rd : RoleplayingDict := {
    level_type := some (re.levelType.getD "")
    feature_type := some (re.featureType.getD "")
    id := re.attr.id
    queryable := some queryable
    roleplay_expression := some role
    roleplay_ref_id := some refId
    roleplayed_name := pyReplaceAll role "{0}" nm
    base_name := some nm
    folder := some (match re.attr.folder with | some f => [f] | none => [thisFolder])
    roleplayed_caption := some (pyReplaceAll role "{0}" caption)
    secondary_attribute := some true }
  alSet d rd.roleplayed_name rd

/-- Lines 492-629: process one governing roleplay id of a level: primary
entries, then plain secondary attributes, then metrical secondary attributes.
The Bool component threads the mutable queryable_level flag. -/
def emitForRoleplay (refIds : List (String × RefEntry)) (infoDict : List (String × PAttribute))
    (roleplayIds : RpTable) (dimName hierName thisFolder : String) (l : PLevel)
    (st : List (String × RoleplayingDict) × Bool) (roleplay : String) :
    List (String × RoleplayingDict) × Bool :=
  let d := st.1
  let q := st.2
  let lrsq : List (String × String) × Bool :=
    if alContains roleplayIds roleplay then (alGetD roleplayIds roleplay [], q)
    else ([("{0}", "")], false)
  let q := lrsq.2
  let d := lrsq.1.foldl (fun d rp =>
    emitPrimary refIds infoDict dimName hierName thisFolder l q rp.1 rp.2 d) d
  let st2 : List (String × RoleplayingDict) × Bool :=
    match l.keyedAttributeRef with
    | some attrs => attrs.foldl (fun (st : List (String × RoleplayingDict) × Bool) attr =>
        if truthyStr? attr.refId then st
        else
          let lrsq : List (String × String) × Bool :=
            if alContains roleplayIds roleplay then (alGetD roleplayIds roleplay [], st.2)
            else ([("{0}", "")], false)
          (lrsq.1.foldl (fun d rp =>
            emitSecondary refIds infoDict dimName hierName thisFolder attr.attributeId
              lrsq.2 rp.1 rp.2 d) st.1, lrsq.2)) (d, q)
    | none => (d, q)
  match l.attributeRef with
  | some attrs => attrs.foldl (fun (st : List (String × RoleplayingDict) × Bool) attr =>
      if truthyStr? attr.refId then st
      else
        let lrsq : List (String × String) × Bool :=
          if alContains roleplayIds roleplay then (alGetD roleplayIds roleplay [], st.2)
          else ([("{0}", "")], false)
        (lrsq.1.foldl (fun d rp =>
          emitMetrical refIds infoDict thisFolder attr.attributeId lrsq.2 rp.1 rp.2 d)
          st.1, lrsq.2)) st2
  | none => st2

/-- Lines 484-491: process one level of the reversed level walk, accumulating
the set of governing roleplay ids seen at or below it; queryable_level is
reset to True for each level. -/
def emitLevel (refIds : List (String × RefEntry)) (infoDict : List (String × PAttribute))
    (roleplayIds : RpTable) (dimName hierName thisFolder : String)
    (st : List String × List (String × RoleplayingDict)) (l : PLevel) :
    List String × List (String × RoleplayingDict) :=
  let roleplays :=
    if alContains roleplayIds l.primaryAttribute then addUniq st.1 l.primaryAttribute else st.1
  let rta := if roleplays = [] then [l.primaryAttribute] else roleplays
  let dq := rta.foldl
    (emitForRoleplay refIds infoDict roleplayIds dimName hierName thisFolder l) (st.2, true)
  (roleplays, dq.1)

/-- Lines 477-629: walk one hierarchy leaf-to-root. -/
def emitHierarchy (refIds : List (String × RefEntry)) (infoDict : List (String × PAttribute))
    (roleplayIds : RpTable) (dimName : String)
    (d : List (String × RoleplayingDict)) (h : PHierarchy) :
    List (String × RoleplayingDict) :=
  let thisFolder := h.folder.getD ""
  ((h.level.reverse).foldl (emitLevel refIds infoDict roleplayIds dimName h.name thisFolder)
    ([], d)).2

/-- Lines 476-629: the full emission walk building dim_to_id_dict. -/
def emitAll (refIds : List (String × RefEntry)) (infoDict : List (String × PAttribute))
    (roleplayIds : RpTable) (dims : List PDimension) : List (String × RoleplayingDict) :=
  dims.foldl (fun d dim =>
    dim.hierarchy.foldl (emitHierarchy refIds infoDict roleplayIds dim.name) d) []

/-- A feature-catalog entry; optional fields embed keys that are absent from
some producers (base_hierarchy none also embeds the non-list default "" that
metrical entries receive at line 653). -/
structure CatalogEntry where
  caption : String := ""
  atscale_type : String := ""
  description : String := ""
  hierarchy : Option (List String) := none
  dimension : Option String := none
  folder : List String := []
  queryable : Option Bool := none
  feature_type : String := ""
  roleplay_expression : Option String := none
  roleplay_ref_id : Option String := none
  base_name : Option String := none
  base_hierarchy : Option (List String) := none
  base_dimension : Option String := none
  secondary_attribute : Option Bool := none
  expression : Option String := none
  deriving Repr, DecidableEq

/-- Lines 635-662: convert one dim_to_id_dict entry to a catalog entry; the
try/except at 638-643 turns both possible KeyErrors into an empty description;
a falsy roleplay_ref_id is not emitted; Numeric entries gain an empty
expression and lose hierarchy and secondary_attribute. -/
def convertEntry (infoDict : List (String × PAttribute)) (rd : RoleplayingDict) : CatalogEntry :=
  let description := match alGet? infoDict rd.id with
    | some a => a.description.getD ""
    | none => ""
  let ft := rd.feature_type.getD "Categorical"
  let base : CatalogEntry := {
    caption := rd.roleplayed_caption.getD ""
    atscale_type := rd.level_type.getD "Regular"
    description := description
    hierarchy := some (rd.roleplayed_hierarchy.getD [""])
    dimension := some (rd.roleplayed_dimension.getD "")
    folder := rd.folder.getD [""]
    queryable := some (rd.queryable.getD true)
    feature_type := ft
    roleplay_expression := some (rd.roleplay_expression.getD "")
    roleplay_ref_id := match rd.roleplay_ref_id with
      | some r => if r ≠ "" then some r else none
      | none => none
    base_name := some (rd.base_name.getD "")
    base_hierarchy := rd.base_hierarchy
    base_dimension := some (rd.base_dimension.getD "")
    secondary_attribute := some (rd.secondary_attribute.getD false) }
  if ft == "Numeric" then
    { base with expression := some "", hierarchy := none, secondary_attribute := none }
  else base

/-- Lines 395 / 681 / 718-720 / 751: the cube with the given name; indexing
the empty comprehension raises IndexError. -/
def findCube (project : ProjectDict) (name : String) : Except PyError Cube :=
  match project.cubes.filter (fun c => c.name == name) with
  | [] => .error (.IndexError "list index out of range")
  | c :: _ => .ok c

/-- data_model_helpers._parse_categorical_features (lines 368-663). -/
def _parse_categorical_features (data_model_name : String) (project : ProjectDict) :
    Except PyError (List (String × CatalogEntry)) := do
  match project.attributes with
  | none => return []
  | some pattrs =>
  match pattrs.keyedAttribute with
  | none => return []
  | some keyedAttrs => do
  let infoDict := keyedAttrs.foldl (fun m a => alSet m a.id a) []
  let infoDict := match pattrs.attributeDef with
    | some attrs => attrs.foldl (fun m a => alSet m a.id a) infoDict
    | none => infoDict
  let cube ← findCube project data_model_name
  let roleplayRefs := buildRoleplayRefs cube
  let roleplayIds := buildRoleplayIds keyedAttrs roleplayRefs
  let roleplayIds := rpFixpoint project.dimensions roleplayIds (rpRefCount project.dimensions + 1)
  let refIds : List (String × RefEntry) :=
    keyedAttrs.foldl (fun m a => alSet m a.id ⟨a, none, none⟩) []
  let st := match pattrs.attributeDef with
    | some attrs => attrs.foldl (fun (st : RpTable × List (String × RefEntry)) (a : PAttribute) =>
        let rids :=
          if truthyStr? a.keyRef && alContains roleplayRefs (a.keyRef.getD "") then
            alSet st.1 a.id (alGetD roleplayRefs (a.keyRef.getD "") [])
          else if a.id ≠ "" && alContains roleplayRefs a.id then
            alSet st.1 a.id (alGetD roleplayRefs a.id [])
          else st.1
        (rids, alSet st.2 a.id ⟨a, some (_get_agg_type a), some "Numeric"⟩))
        (roleplayIds, refIds)
    | none => (roleplayIds, refIds)
  let dimToId := emitAll st.2 infoDict st.1 project.dimensions
  return dimToId.map (fun kv => (kv.1, convertEntry infoDict kv.2))

/-- data_model_helpers._parse_aggregate_features (lines 666-701). -/
def _parse_aggregate_features (data_model_name : String) (project : ProjectDict) :
    Except PyError (List (String × CatalogEntry)) := do
  let cube ← findCube project data_model_name
  match cube.attributes with
  | none => return []
  | some cattrs =>
  match cattrs.attributeDef with
  | none => return []
  | some featureInfo =>
  return featureInfo.foldl (fun m i =>
    alSet m i.name {
      caption := i.caption
      atscale_type := _get_agg_type i
      description := i.description.getD ""
      folder := [i.folder.getD ""]
      feature_type := "Numeric"
      expression := some "" }) []

/-- data_model_helpers._parse_calculated_features (lines 704-733). -/
def _parse_calculated_features (data_model_name : String) (project : ProjectDict) :
    Except PyError (List (String × CatalogEntry)) := do
  let cube ← findCube project data_model_name
  let refs := cube.calculatedMemberRef
  return project.calculatedMembers.foldl (fun m feature =>
    if refs.contains feature.id then
      alSet m feature.name {
        caption := feature.caption
        atscale_type := "Calculated"
        description := feature.description.getD ""
        folder := [feature.folder.getD ""]
        feature_type := "Numeric"
        expression := some (feature.expression.getD "") }
    else m) []

/-- The folder_info record of _parse_denormalized_categorical_features. -/
structure FolderInfo where
  folder : List String
  hierarchy : List String
  dimension : String
  atscale_type : String
  secondary_attribute : Bool
  deriving Repr, DecidableEq

/-- data_model_helpers._parse_denormalized_categorical_features
(lines 736-827), over the cube-level (degenerate) dimensions. -/
def _parse_denormalized_categorical_features (data_model_name : String)
    (project : ProjectDict) : Except PyError (List (String × CatalogEntry)) := do
  let cube ← findCube project data_model_name
  match cube.attributes with
  | none => return []
  | some cattrs =>
  match cattrs.keyedAttribute with
  | none => return []
  | some featureInfo =>
  let projectAttributes := match project.attributes with
    | some pa => pa.keyedAttribute.getD [] ++ pa.attributeDef.getD []
    | none => []
  let st := cube.dimensions.foldl (fun st dimension =>
    dimension.hierarchy.foldl (fun st hierarchy =>
      let thisFolder := hierarchy.folder.getD ""
      hierarchy.level.foldl (fun (st : List (String × FolderInfo) × List String) level =>
        let levelAttrId := level.primaryAttribute
        let mets := st.2 ++ (level.attributeRef.getD []).map (fun a => a.attributeId)
        let secondaries := (level.keyedAttributeRef.getD []).map (fun a => a.attributeId)
          ++ (level.attributeRef.getD []).map (fun a => a.attributeId)
        let fi := (levelAttrId :: secondaries).foldl (fun fi attrId =>
          match alGet? fi attrId with
          | some info =>
            if info.hierarchy.contains hierarchy.name then fi
            else alSet fi attrId { info with
              folder := info.folder ++ [thisFolder]
              hierarchy := info.hierarchy ++ [hierarchy.name] }
          | none =>
            let at0 : String := match level.properties with
              | some p => p.levelType.getD "Regular"
              | none => "Regular"
            alSet fi attrId {
              folder := [thisFolder]
              hierarchy := [hierarchy.name]
              dimension := dimension.name
              atscale_type := if mets.contains attrId then "Aggregate" else at0
              secondary_attribute := attrId ≠ levelAttrId }) st.1
        (fi, mets)) st) st) (([] : List (String × FolderInfo)), ([] : List String))
  let folderInfo := st.1
  let metricalAttrs := st.2
  return (featureInfo ++ projectAttributes).foldl (fun m i =>
    match alGet? folderInfo i.id with
    | none => m
    | some finfo =>
      let isSecondary := finfo.secondary_attribute
      let feature0 : CatalogEntry := {
        caption := i.caption
        atscale_type := finfo.atscale_type
        description := i.description.getD ""
        hierarchy := some finfo.hierarchy
        dimension := some finfo.dimension
        folder := finfo.folder
        feature_type := "Categorical"
        secondary_attribute := some isSecondary }
      let feature1 := if isSecondary then
          { feature0 with
            folder := (match i.folder with | some sf => [sf] | none => feature0.folder)
            hierarchy := some [i.name] }
        else feature0
      let feature2 := if metricalAttrs.contains i.id then
          { feature1 with
            hierarchy := none
            dimension := none
            secondary_attribute := none
            atscale_type := _get_agg_type i
            feature_type := "Numeric"
            expression := some "" }
        else feature1
      alSet m i.name feature2) []

/-! ## data_model_helpers._get_draft_features -/

/-- The FeatureType enum of atscale.base.enums (an external dependency):
name_val carries the display value compared against catalog entries, name the
Python enum member name. -/
inductive FeatureType where
  | ALL | CATEGORICAL | NUMERIC
  deriving Repr, DecidableEq

/-- The name_val attribute of FeatureType ("Categorical" / "Numeric" as
compared at data_model_helpers line 67). -/
def FeatureType.name_val : FeatureType → String
  | .ALL => "All"
  | .CATEGORICAL => "Categorical"
  | .NUMERIC => "Numeric"

/-- The Python enum member name, as read at query_utils line 211. -/
def FeatureType.pyName : FeatureType → String
  | .ALL => "ALL"
  | .CATEGORICAL => "CATEGORICAL"
  | .NUMERIC => "NUMERIC"

/-- A parameter that Python may receive as a bare string or as a list. -/
inductive StrOrList where
  | str (s : String)
  | list (l : List String)
  deriving Repr, DecidableEq

/-- Lines 53-54: a bare string becomes a one-element list. -/
def normalizeStrOrList : Option StrOrList → Option (List String)
  | some (.str s) => some [s]
  | some (.list l) => some l
  | none => none

/-- data_model_helpers._get_draft_features (lines 24-69): assemble the draft
catalog and prune it by feature names, folders and feature type (the deletion
loop over a deep copy keeps, in order, exactly the entries passing every
filter). -/
def _get_draft_features (project : ProjectDict) (data_model_name : String)
    (feature_list folder_list : Option StrOrList) (feature_type : FeatureType) :
    Except PyError (List (String × CatalogEntry)) := do
  let cat ← _parse_categorical_features data_model_name project
  let startDict := alUpdate [] cat
  let den ← _parse_denormalized_categorical_features data_model_name project
  let startDict := alUpdate startDict den
  let startDict ←
    if feature_type == .NUMERIC || feature_type == .ALL then do
      let agg ← _parse_aggregate_features data_model_name project
      let calcd ← _parse_calculated_features data_model_name project
      pure (alUpdate (alUpdate startDict agg) calcd)
    else pure startDict
  let featureList := normalizeStrOrList feature_list
  let folderList := normalizeStrOrList folder_list
  return startDict.filter (fun kv =>
    (match featureList with | some fl => fl.contains kv.1 | none => true) &&
    (match folderList with
      | some fl => !(kv.2.folder.all (fun fv => !(fl.contains fv)))
      | none => true) &&
    (if feature_type != .ALL then kv.2.feature_type == feature_type.name_val else true))

/-! ## data_model_helpers._check_joins -/

/-- The key metadata of one join feature, as returned by the external
project_parser._get_feature_keys lookup (key_cols and value_col). -/
structure KeyInfo where
  key_cols : List String
  value_col : String
  deriving Repr, DecidableEq

/-- Modelled from the spec: project_parser.get_cube (an external parser
module) returns the cube of the project with the given id, or None. -/
def get_cube (project : ProjectDict) (id : String) : Option Cube :=
  project.cubes.find? (fun c => c.id == id)

/-- data_model_helpers._check_joins (lines 72-243) for calls without a
database connection or dataframe (dbconn=None, df=None): the interactive
key/value disambiguation branch (lines 192-230) is unreachable
and the key/value mismatch branch (lines 231-241) only logs a warning.
key_dict is required here because its default is produced by the external
project_parser._get_feature_keys; feature_dict defaults to the draft catalog
as in the source.  Returns (join_features, join_columns, roleplay_features). -/
def _check_joins (project : ProjectDict) (cube_id : String)
    (join_featuresIn : Option (List String)) (join_columnsIn : Option (List StrOrList))
    (column_set : List String) (roleplay_featuresIn : Option (List String))
    (key_dict : List (String × KeyInfo))
    (feature_dictIn : Option (List (String × CatalogEntry))) :
    Except PyError (List String × List (List String) × List String) := do
  let join_features := join_featuresIn.getD []
  let join_columns ← match join_columnsIn with
    | none => Except.ok (join_features.map StrOrList.str)
    | some jc =>
      if join_features.length ≠ jc.length then
        Except.error (.UserError ("join_features and join_columns must be equal lengths. "
          ++ "join_features is length " ++ toString join_features.length
          ++ " while join_columns is length " ++ toString jc.length))
      else Except.ok jc
  let roleplay_features ← match roleplay_featuresIn with
    | none => Except.ok (join_features.map (fun _ => ""))
    | some rp =>
      if join_features.length ≠ rp.length then
        Except.error (.UserError ("join_features and roleplay_features lengths must match. "
          ++ "join_features is length " ++ toString join_features.length
          ++ " while roleplay_features is length " ++ toString rp.length))
      else Except.ok rp
  let feature_dict ← match feature_dictIn with
    | some fd => Except.ok fd
    | none =>
      match get_cube project cube_id with
      | none => Except.error (.ExceptionErr "NoneType object is not subscriptable")
      | some cube => _get_draft_features project cube.name none none .ALL
  let lvbn := feature_dict.foldl
    (fun (st : List (String × CatalogEntry) × List (String × CatalogEntry)) kv =>
      if kv.2.feature_type == "Categorical" then
        let bn := if kv.1 ≠ (kv.2.base_name.getD kv.1) then alSet st.2 (kv.2.base_name.getD kv.1) kv.2
          else st.2
        let lv := if !(kv.2.secondary_attribute.getD false) then
            alSet st.1 (kv.2.base_name.getD kv.1) kv.2
          else st.1
        (lv, bn)
      else st) ([], [])
  let levels := lvbn.1
  let feature_dict := alUpdate feature_dict lvbn.2
  let features_not_in_model := join_features.filter (fun f => !(alContains feature_dict f))
  let non_level_features := join_features.filter
    (fun f => alContains feature_dict f && !(alContains levels f))
  let err1 := if features_not_in_model ≠ [] then
      "The following features in join_features do not exist in the data model: "
        ++ pyReprStrList features_not_in_model ++ "\n"
    else ""
  let err2 := if non_level_features ≠ [] then
      "Joins must be made exclusively to hierarchy levels, the following items in "
        ++ "join_features are not levels of a hierarchy: "
        ++ pyReprStrList non_level_features ++ "."
    else ""
  if err1 ++ err2 ≠ "" then Except.error (.UserError (err1 ++ err2))
  let join_columns : List (List String) := join_columns.map
    (fun c => match c with | .str s => [s] | .list l => l)
  let missing := join_columns.foldl
    (fun acc col => acc ++ col.filter (fun c => !(column_set.contains c))) []
  if missing ≠ [] then
    Except.error (.UserError ("The given join_columns " ++ pyReprStrList missing
      ++ " do not exist in the column set " ++ pyReprStrList column_set ++ "."))
  let _ ← (join_features.zip join_columns).foldlM (fun (_ : Unit) fj => do
      match alGet? key_dict fj.1 with
      | none => Except.error (.KeyError fj.1)
      | some ki =>
        if fj.2.length ≠ ki.key_cols.length then
          Except.error (.UserError ("Relationship for feature: \"" ++ fj.1 ++ "\" requires "
            ++ toString ki.key_cols.length
            ++ (if ki.key_cols.length > 1 then " keys" else " key") ++ ": "
            ++ pyReprStrList ki.key_cols ++ " but received " ++ toString fj.2.length
            ++ ": " ++ pyReprStrList fj.2))
        else
          match ki.key_cols with
          | [] => Except.error (.IndexError "list index out of range")
          | _ :: _ => Except.ok ()) ()
  return (join_features, join_columns, roleplay_features)

/-! ## query_utils._generate_atscale_query -/

/-- A Python value as rendered by the query builder (floats are not used by
any claim and are omitted; isinstance(value, (int, float, bool)) holds for
int and bool). -/
inductive PyVal where
  | str (s : String)
  | int (n : Int)
  | bool (b : Bool)
  deriving Repr, DecidableEq

/-- Python str(value) for the embedded value kinds. -/
def PyVal.pystr : PyVal → String
  | .str s => s
  | .int n => toString n
  | .bool b => if b then "True" else "False"

/-- Python isinstance(value, (int, float, bool)). -/
def PyVal.isNum : PyVal → Bool
  | .str _ => false
  | _ => true

/-- The external DataModel collaborator as the query compiler sees it.
Modelled from the spec: get_features() yields the published catalog mapping
feature query name to its metadata, of which only feature_type is read; the
project supplies the published project name. -/
structure DataModelQ where
  allFeatures : List (String × String)
  publishedProjectName : String
  name : String
  deriving Repr, DecidableEq

/-- Modelled from the spec: model_utils._check_features (an external module)
raises a UserError naming, in one aggregated message, the requested names
missing from the check list, and is a no-op when all are present. -/
def _check_features (features : List String) (check_list : List String) (errmsg : String) :
    Except PyError Unit :=
  let missing := features.filter (fun f => !(check_list.contains f))
  if missing ≠ [] then .error (.UserError (errmsg ++ " " ++ pyReprStrList missing))
  else .ok ()

/-- Modelled from the spec: the CheckFeaturesErrMsg strings live in the
external atscale.base.enums module; no claim depends on their exact text. -/
def allErrMsgPublished : String :=
  "The following features do not exist in the published data model:"

/-- Modelled from the spec: CheckFeaturesErrMsg.NUMERIC for draft models. -/
def numericErrMsg : String :=
  "The following numeric features do not exist in the data model:"

/-- Modelled from the spec: CheckFeaturesErrMsg.CATEGORICAL for draft models. -/
def categoricalErrMsg : String :=
  "The following categorical features do not exist in the data model:"

/-- Modelled from the spec: CheckFeaturesErrMsg.HIERARCHY for draft models. -/
def hierarchyErrMsg : String :=
  "The following hierarchies do not exist in the data model:"

/-- Lines 328-331: the LIMIT fragment. -/
def limitString (limit : Option Int) : String :=
  match limit with
  | none => ""
  | some l => " LIMIT " ++ toString l

/-- Lines 333-336: the trailing user comment fragment. -/
def commentString (comment : Option String) : String :=
  match comment with
  | none => ""
  | some c => " /* " ++ c ++ " */"

/-- Python repr of a list of (str, str) tuples, for the order_by error. -/
def pyReprPairList (xs : List (String × String)) : String :=
  "[" ++ String.intercalate ", "
    (xs.map (fun p => "('" ++ p.1 ++ "', '" ++ p.2 ++ "')")) ++ "]"

/-- Lines 218-324: the running filter string gains " and " before every
fragment but the first. -/
def andSep (s : String) : String := if s ≠ " WHERE (" then s ++ " and " else s

/-- Lines 219-278: render one comparison fragment; a non-numeric value that is
itself a feature name becomes a quoted identifier, otherwise a quoted
literal; numeric and boolean values are rendered bare. -/
def renderCmp (listAll : List String) (key op : String) (v : PyVal) : String :=
  match v with
  | .str sv =>
    if listAll.contains sv then "(`" ++ key ++ "` " ++ op ++ " `" ++ sv ++ "`)"
    else "(`" ++ key ++ "` " ++ op ++ " '" ++ sv ++ "')"
  | v => "(`" ++ key ++ "` " ++ op ++ " " ++ v.pystr ++ ")"

/-- Lines 299-315: render one BETWEEN fragment. -/
def renderBetween (listAll : List String) (key : String) (v : PyVal × PyVal) : String :=
  let part1 := match v.1 with
    | .str sv =>
      if listAll.contains sv then "(`" ++ key ++ "` BETWEEN `" ++ sv ++ "` and "
      else "(`" ++ key ++ "` BETWEEN '" ++ sv ++ "' and "
    | w => "(`" ++ key ++ "` BETWEEN " ++ w.pystr ++ " and "
  let part2 := match v.2 with
    | .str sv => if listAll.contains sv then "`" ++ sv ++ "`)" else "'" ++ sv ++ "')"
    | w => w.pystr ++ ")"
  part1 ++ part2

/-- Lines 217-326: build the WHERE string; empty filters produce the empty
string, filter_in subscripts value[0] and raises IndexError on an empty
value list. -/
def _filter_string (listAll : List String)
    (filter_equals filter_greater filter_less filter_greater_or_equal
      filter_less_or_equal filter_not_equal : List (String × PyVal))
    (filter_in : List (String × List PyVal)) (filter_between : List (String × (PyVal × PyVal)))
    (filter_like filter_rlike : List (String × String))
    (filter_null filter_not_null : List String) : Except PyError String := do
  let anyFilters := !filter_equals.isEmpty || !filter_greater.isEmpty || !filter_less.isEmpty
    || !filter_greater_or_equal.isEmpty || !filter_less_or_equal.isEmpty
    || !filter_not_equal.isEmpty || !filter_in.isEmpty || !filter_between.isEmpty
    || !filter_like.isEmpty || !filter_rlike.isEmpty || !filter_null.isEmpty
    || !filter_not_null.isEmpty
  if anyFilters then
    let s := " WHERE ("
    let s := filter_equals.foldl (fun s kv => andSep s ++ renderCmp listAll kv.1 "=" kv.2) s
    let s := filter_greater.foldl (fun s kv => andSep s ++ renderCmp listAll kv.1 ">" kv.2) s
    let s := filter_less.foldl (fun s kv => andSep s ++ renderCmp listAll kv.1 "<" kv.2) s
    let s := filter_greater_or_equal.foldl
      (fun s kv => andSep s ++ renderCmp listAll kv.1 ">=" kv.2) s
    let s := filter_less_or_equal.foldl
      (fun s kv => andSep s ++ renderCmp listAll kv.1 "<=" kv.2) s
    let s := filter_not_equal.foldl (fun s kv => andSep s ++ renderCmp listAll kv.1 "<>" kv.2) s
    let s := filter_like.foldl
      (fun s kv => andSep s ++ "(`" ++ kv.1 ++ "` LIKE '" ++ kv.2 ++ "')") s
    let s := filter_rlike.foldl
      (fun s kv => andSep s ++ "(`" ++ kv.1 ++ "` RLIKE '" ++ kv.2 ++ "')") s
    let s ← filter_in.foldlM (fun s kv => do
        let strValues := kv.2.map PyVal.pystr
        let s := andSep s
        match kv.2 with
        | [] => Except.error (.IndexError "list index out of range")
        | v0 :: _ =>
          if !v0.isNum then
            Except.ok (s ++ "(`" ++ kv.1 ++ "` IN ('"
              ++ String.intercalate "', '" strValues ++ "'))")
          else
            Except.ok (s ++ "(`" ++ kv.1 ++ "` IN ("
              ++ String.intercalate ", " strValues ++ "))")) s
    let s := filter_between.foldl
      (fun s kv => andSep s ++ renderBetween listAll kv.1 kv.2) s
    let s := filter_null.foldl (fun s k => andSep s ++ "(`" ++ k ++ "` IS NULL)") s
    let s := filter_not_null.foldl (fun s k => andSep s ++ "(`" ++ k ++ "` IS NOT NULL)") s
    return s ++ ")"
  else
    return ""

/-- query_utils._generate_atscale_query (lines 21-354).  version stands for
config.Config().version (external configuration); the duplicate-name log
(lines 145-149) and the multi-key compound-key check (lines 152-181) only
write log messages and do not touch the query string. -/
def _generate_atscale_query (dm : DataModelQ) (version : String)
    (feature_list : List String)
    (filter_equals filter_greater filter_less filter_greater_or_equal
      filter_less_or_equal filter_not_equal : List (String × PyVal))
    (filter_in : List (String × List PyVal)) (filter_between : List (String × (PyVal × PyVal)))
    (filter_like filter_rlike : List (String × String))
    (filter_null filter_not_null : List String)
    (order_by : Option (List (String × String))) (limit : Option Int)
    (comment : Option String) (use_aggs gen_aggs : Bool) : Except PyError String := do
  let order_by := order_by.getD []
  let bad := order_by.filter
    (fun t => !(pyToUpper t.2 == "ASC" || pyToUpper t.2 == "DESC"))
  if bad ≠ [] then
    Except.error (.UserError ("All items in the order_by parameter must be a tuple of a "
      ++ "feature name then \"ASC\" or \"DESC\". The following do not comply: "
      ++ pyReprPairList bad))
  let ordering_strings := order_by.map (fun t => "`" ++ t.1 ++ "` " ++ pyToUpper t.2)
  let ordering_features := order_by.map (fun t => t.1)
  let listAll := dm.allFeatures.map (fun kv => kv.1)
  _check_features feature_list listAll allErrMsgPublished
  let feature_list := dedupFirst feature_list
  let filterParams : List (List String) :=
    [filter_equals.map (fun kv => kv.1), filter_greater.map (fun kv => kv.1),
     filter_less.map (fun kv => kv.1), filter_greater_or_equal.map (fun kv => kv.1),
     filter_less_or_equal.map (fun kv => kv.1), filter_not_equal.map (fun kv => kv.1),
     filter_in.map (fun kv => kv.1), filter_between.map (fun kv => kv.1),
     filter_like.map (fun kv => kv.1), filter_rlike.map (fun kv => kv.1),
     filter_null, filter_not_null, ordering_features]
  let _ ← filterParams.foldlM
    (fun (_ : Unit) p => _check_features p listAll allErrMsgPublished) ()
  let order_string :=
    if ordering_strings ≠ [] then " ORDER BY " ++ String.intercalate ", " ordering_strings
    else
      let categorical_columns := (feature_list.filter
        (fun nm => pyToUpper (alGetD dm.allFeatures nm "") == FeatureType.CATEGORICAL.pyName)).map
          (fun nm => "`" ++ nm ++ "`")
      if categorical_columns ≠ [] then
        " ORDER BY " ++ String.intercalate ", " categorical_columns
      else ""
  let all_columns_string := " " ++ String.intercalate ", "
    (feature_list.map (fun x => "`" ++ x ++ "`"))
  let filter_string ← _filter_string listAll filter_equals filter_greater filter_less
    filter_greater_or_equal filter_less_or_equal filter_not_equal filter_in filter_between
    filter_like filter_rlike filter_null filter_not_null
  let limit_string := limitString limit
  let comment_string := commentString comment
  let version_comment := "/* AtScale AI-Link Library Version: " ++ version ++ " */ "
  let use_aggs_comment := if use_aggs then "" else " /* use_aggs(false) */"
  let gen_aggs_comment := if gen_aggs then "" else " /* generate_aggs(false) */"
  return version_comment ++ "SELECT" ++ use_aggs_comment ++ gen_aggs_comment
    ++ all_columns_string
    ++ " FROM `" ++ dm.publishedProjectName ++ "`.`" ++ dm.name ++ "`"
    ++ filter_string ++ order_string ++ limit_string ++ comment_string

/-! ## data_model_helpers._create_perspective -/

/-- The external DataModel/Project collaborators as _create_perspective sees
them: the current project dict (project._get_dict()), the model name, the
cube id, and the result of data_model.get_hierarchies(secondary_attribute=
False), an external DMV-backed call mapping hierarchy name to its
secondary_attribute flag. -/
structure DataModelP where
  projectDict : ProjectDict
  name : String
  cubeId : String
  hierarchyInfo : List (String × Bool)
  deriving Repr, DecidableEq

/-- One entry of hierarchy_roleplays / dimension_roleplays (lines 992-1007):
the base (un-roleplayed) name and the roleplay ref id. -/
structure RpEntry where
  base : String
  refId : String
  deriving Repr, DecidableEq

/-- Python truthiness of an optional list (None and [] are falsy). -/
def truthyList : Option (List String) → Bool
  | some l => l ≠ []
  | none => false

/-- project_dict.get("attributes", {}).get("attribute", []). -/
def projAttrList (project : ProjectDict) : List PAttribute :=
  match project.attributes with | some pa => pa.attributeDef.getD [] | none => []

/-- project_dict.get("attributes", {}).get("keyed-attribute", []). -/
def projKeyedList (project : ProjectDict) : List PAttribute :=
  match project.attributes with | some pa => pa.keyedAttribute.getD [] | none => []

/-- cube.get("attributes", {}).get("attribute", []). -/
def cubeAttrList (cube : Cube) : List PAttribute :=
  match cube.attributes with | some ca => ca.attributeDef.getD [] | none => []

/-- cube.get("attributes", {}).get("keyed-attribute", []). -/
def cubeKeyedList (cube : Cube) : List PAttribute :=
  match cube.attributes with | some ca => ca.keyedAttribute.getD [] | none => []

/-- Lines 992-1007: derive the hierarchy and dimension roleplay tables from
the categorical catalog; first writer wins for each display name. -/
def buildHierDimRoleplays (catInfo : List (String × CatalogEntry)) :
    List (String × RpEntry) × List (String × RpEntry) :=
  catInfo.foldl (fun (st : List (String × RpEntry) × List (String × RpEntry)) kv =>
    let info := kv.2
    let hiers := info.hierarchy.getD []
    let bases := info.base_hierarchy.getD (info.hierarchy.getD [])
    let hm := (hiers.zip bases).foldl (fun hm hb =>
      if alContains hm hb.1 then hm
      else alSet hm hb.1 ⟨hb.2, info.roleplay_ref_id.getD ""⟩) st.1
    let dimName := info.dimension.getD ""
    let dm := if alContains st.2 dimName then st.2
      else alSet st.2 dimName ⟨info.base_dimension.getD dimName, info.roleplay_ref_id.getD ""⟩
    (hm, dm)) ([], [])

/-- Lines 1115-1127 / 1217-1231: a perspective dimension node matches a hide
request when its ref-path's ref id equals the request's roleplay ref id, or
when it has no ref-path and the requested name is not roleplayed. -/
def rpCriterion (refId : String) (notRoleplayed : Bool) (n : FlatDimRef) : Bool :=
  match n.refPath with
  | some r => r == refId
  | none => notRoleplayed

/-- The merge scan of lines 1111-1131 / 1214-1245: rewrite the first node with
the given id whose roleplay criteria match and stop; nodes with the same id
but a different roleplay are skipped; none means the scan fell through. -/
def mergeScan (dimId : String) (crit : FlatDimRef → Bool) (act : FlatDimRef → FlatDimRef) :
    List FlatDimRef → Option (List FlatDimRef)
  | [] => none
  | n :: rest =>
    if n.id == dimId && crit n then some (act n :: rest)
    else match mergeScan dimId crit act rest with
      | some rest' => some (n :: rest')
      | none => none

/-- Lines 1080-1095: hide the requested dimensions.  Each name resolves
through dimension_roleplays to a base dimension name; the first dimension
object with that name gets one hidden flat-dimension-ref node (with a
ref-path when the request is roleplayed) and the request is recorded in
hidden_dimensions; an unmatched name raises UserError. -/
def hideDims (allDims : List PDimension) (dimRp : List (String × RpEntry)) :
    List FlatDimRef × List String → List String → Except PyError (List FlatDimRef × List String)
  | st, [] => .ok st
  | st, dimension :: rest =>
    match allDims.find? (fun dim =>
        match alGet? dimRp dimension with
        | some e => dim.name == e.base
        | none => false) with
    | some dim =>
      let e := (alGet? dimRp dimension).getD ⟨"", ""⟩
      let node : FlatDimRef := {
        id := dim.id
        refPath := if dimension ≠ e.base then some e.refId else none
        visible := false }
      hideDims allDims dimRp (st.1 ++ [node], st.2 ++ [dimension]) rest
    | none => .error (.UserError ("No dimension named: '" ++ dimension ++ "' found"))

/-- Lines 1097-1147: hide one requested hierarchy.  The scan acts on the
first (dimension, hierarchy-object) pair whose name equals the request's base
hierarchy and whose dimension is not already hidden (a hidden ancestor makes
the request a no-op and it is not recorded); the node for its dimension is
merged by id and roleplay ref path, or freshly appended. -/
def hideOneHier (allDims : List PDimension) (hierRp : List (String × RpEntry))
    (hiddenDims : List String) (st : List FlatDimRef × List String) (hierarchy : String) :
    Except PyError (List FlatDimRef × List String) := do
  match alGet? hierRp hierarchy with
  | none => Except.error (.KeyError hierarchy)
  | some e =>
    match (allDims.flatMap (fun dim => dim.hierarchy.map (fun h => (dim, h)))).find?
        (fun dh => dh.2.name == e.base && !(hiddenDims.contains dh.1.name)) with
    | none => Except.ok st
    | some dh =>
      let hierDict : FlatHierRef := { id := dh.2.id, visible := false }
      let nodes' := match mergeScan dh.1.id (rpCriterion e.refId (hierarchy == e.base))
          (fun n => { n with
            flatHierarchyRef := some ((n.flatHierarchyRef.getD []) ++ [hierDict]) }) st.1 with
        | some ns => ns
        | none => st.1 ++ [{
            id := dh.1.id
            flatHierarchyRef := some [hierDict]
            visible := true
            refPath := if hierarchy ≠ e.base then some e.refId else none }]
      Except.ok (nodes', st.2 ++ [hierarchy])

/-- Lines 1038-1073: route each numeric feature to a hidden measure node or a
hidden calculated-member node, resolving roleplayed metrical names to their
base measure. -/
def numericPhase (project : ProjectDict) (cube : Cube)
    (numericInfo : List (String × CatalogEntry)) (features : List String) :
    Except PyError (List MeasureNode × List CalcNode) :=
  features.foldlM (fun (st : List MeasureNode × List CalcNode) feature => do
    match alGet? numericInfo feature with
    | none => Except.error (.KeyError feature)
    | some info =>
      let base := info.base_name.getD feature
      if info.atscale_type ≠ "Calculated" then
        match (projAttrList project ++ cubeAttrList cube).filter (fun x => x.name == base) with
        | [] => Except.error (.IndexError "list index out of range")
        | x :: _ =>
          let node : MeasureNode := {
            id := x.id
            visible := false
            refPath := if base ≠ feature then some (info.roleplay_ref_id.getD "") else none }
          Except.ok (st.1 ++ [node], st.2)
      else
        match project.calculatedMembers.filter (fun x => x.name == feature) with
        | [] => Except.error (.IndexError "list index out of range")
        | x :: _ => Except.ok (st.1, st.2 ++ [{ id := x.id, visible := false }])) ([], [])

/-- Lines 1233-1244: append the hidden level to the first hierarchy node with
the matching id; when none exists the source appends a fresh visible
hierarchy node that does not carry the level (the rebinding at 1239-1242
drops the flat-level-ref). -/
def appendLevelFirst (hid : String) (levelDict : FlatLevelRef) :
    List FlatHierRef → Option (List FlatHierRef)
  | [] => none
  | h :: rest =>
    if h.id == hid then
      some ({ h with flatLevelRef := some ((h.flatLevelRef.getD []) ++ [levelDict]) } :: rest)
    else (appendLevelFirst hid levelDict rest).map (fun r => h :: r)

/-- Lines 1168-1182 condition of the categorical phase: the first name in the
feature's hierarchy list that is secondary (always true) or matches the
scanned hierarchy object's name through hierarchy_roleplays and is not
already hidden; the roleplay subscript can raise KeyError. -/
def catCondAny (hierRp : List (String × RpEntry)) (hiddenHiers : List String)
    (secondary : Bool) (hierName : String) : List String → Except PyError Bool
  | [] => .ok false
  | hierarchy :: rest =>
    if secondary then .ok true
    else match alGet? hierRp hierarchy with
      | none => .error (.KeyError hierarchy)
      | some e =>
        if hierName == e.base && !(hiddenHiers.contains hierarchy) then .ok true
        else catCondAny hierRp hiddenHiers secondary hierName rest

/-- Lines 1149-1269: hide one categorical feature.  A feature whose dimension
or all of whose hierarchies are already hidden is skipped.  The outer scan
over every (dimension, hierarchy-object) pair has no break (the source's
final continue/break pair is commented out), so the action repeats for every
pair whose condition holds: a secondary attribute is appended as a hidden
flat-attribute node; a level gains a hidden flat-level-ref merged into its
dimension and hierarchy nodes by id and roleplay ref path. -/
def catPhaseFeature (project : ProjectDict) (cube : Cube) (allDims : List PDimension)
    (catInfo : List (String × CatalogEntry)) (hierRp : List (String × RpEntry))
    (hierarchyInfo : List (String × Bool)) (hiddenDims hiddenHiers : List String)
    (st : Option (List MeasureNode) × List FlatDimRef) (cf : String) :
    Except PyError (Option (List MeasureNode) × List FlatDimRef) := do
  match alGet? catInfo cf with
  | none => Except.error (.KeyError cf)
  | some info =>
    let hierNames := info.hierarchy.getD []
    let dimName := info.dimension.getD ""
    match hierNames with
    | [] => Except.error (.IndexError "list index out of range")
    | h0 :: _ =>
      let secondary := match alGet? hierarchyInfo h0 with
        | some b => b
        | none => true
      if hiddenDims.contains dimName
          || (hierNames.filter (fun x => !(hiddenHiers.contains x))) = [] then
        Except.ok st
      else
        let baseName := info.base_name.getD cf
        (allDims.flatMap (fun dim => dim.hierarchy.map (fun h => (dim, h)))).foldlM
          (fun (st : Option (List MeasureNode) × List FlatDimRef) dh => do
            let cond ← catCondAny hierRp hiddenHiers secondary dh.2.name hierNames
            if !cond then Except.ok st
            else
              match (projKeyedList project ++ cubeKeyedList cube).find?
                  (fun a => a.name == baseName) with
              | none => Except.ok st
              | some attributeObj =>
                if secondary then do
                  let refP ← if cf ≠ baseName then
                      match info.roleplay_ref_id with
                      | some r => Except.ok (some r)
                      | none => Except.error (.KeyError "roleplay_ref_id")
                    else Except.ok none
                  let node : MeasureNode := {
                    id := attributeObj.id
                    visible := false
                    refPath := refP }
                  Except.ok (some ((st.1.getD []) ++ [node]), st.2)
                else do
                  let levelDict : FlatLevelRef :=
                    { primaryAttribute := attributeObj.id, visible := false }
                  let hierDict : FlatHierRef :=
                    { id := dh.2.id, flatLevelRef := some [levelDict], visible := true }
                  let act : FlatDimRef → FlatDimRef := fun n =>
                    match appendLevelFirst dh.2.id levelDict (n.flatHierarchyRef.getD []) with
                    | some hs => { n with flatHierarchyRef := some hs }
                    | none =>
                      let fresh : FlatHierRef := { id := dh.2.id, visible := true }
                      { n with flatHierarchyRef := some ((n.flatHierarchyRef.getD []) ++ [fresh]) }
                  match mergeScan dh.1.id
                      (rpCriterion (info.roleplay_ref_id.getD "") (cf == baseName)) act st.2 with
                  | some ns => Except.ok (st.1, ns)
                  | none => do
                    let refP ← if cf ≠ baseName then
                        match info.roleplay_ref_id with
                        | some r => Except.ok (some r)
                        | none => Except.error (.KeyError "roleplay_ref_id")
                      else Except.ok none
                    Except.ok (st.1, st.2 ++ [{
                      id := dh.1.id
                      flatHierarchyRef := some [hierDict]
                      visible := true
                      refPath := refP }])) st

/-- data_model_helpers._create_perspective (lines 944-1279).  freshId stands
for the uuid4 drawn for a new perspective and publish is forwarded to the
external Project._update_project; on success the result is the new
perspective's id together with the patched project dict handed to that
call. -/
def _create_perspective (dm : DataModelP) (name : String)
    (dimensions hierarchies categorical_features numeric_features : Option (List String))
    (publish : Bool) (update : Bool) (freshId : String) :
    Except PyError (String × ProjectDict) := do
  let project := dm.projectDict
  let perspectives := project.perspectives.getD []
  let perspective_id ←
    if update then
      match (perspectives.filter (fun x => x.name == name)).map (fun x => x.id) with
      | [] => Except.error (.UserError ("No perspective named: '" ++ name ++ "' exists"))
      | pid :: _ => Except.ok pid
    else
      if perspectives.any (fun x => x.name == name) then
        Except.error (.ValueError ("A perspective named: '" ++ name ++ "' already exists"))
      else Except.ok freshId
  let numericInfo ← _get_draft_features project dm.name none none .NUMERIC
  let catInfo ← _get_draft_features project dm.name none none .CATEGORICAL
  let maps := buildHierDimRoleplays catInfo
  if truthyList numeric_features then
    _check_features (numeric_features.getD []) (alKeys numericInfo) numericErrMsg
  if truthyList categorical_features then
    _check_features (categorical_features.getD []) (alKeys catInfo) categoricalErrMsg
  if truthyList hierarchies then
    _check_features (hierarchies.getD []) (dm.hierarchyInfo.map (fun kv => kv.1)) hierarchyErrMsg
  let cube ← match get_cube project dm.cubeId with
    | some c => Except.ok c
    | none => Except.error (.ExceptionErr "NoneType object is not subscriptable")
  let ncm ← if truthyList numeric_features then do
      let r ← numericPhase project cube numericInfo (numeric_features.getD [])
      pure (some r.1, some r.2)
    else pure ((none : Option (List MeasureNode)), (none : Option (List CalcNode)))
  let allDims := project.dimensions ++ cube.dimensions
  let st1 ← if truthyList dimensions then
      hideDims allDims maps.2 ([], []) (dimensions.getD [])
    else pure (([] : List FlatDimRef), ([] : List String))
  let st2 ← if truthyList hierarchies then
      (hierarchies.getD []).foldlM (hideOneHier allDims maps.1 st1.2) (st1.1, [])
    else pure (st1.1, ([] : List String))
  let stc ← if truthyList categorical_features then
      (categorical_features.getD []).foldlM
        (catPhaseFeature project cube allDims catInfo maps.1 dm.hierarchyInfo st1.2 st2.2)
        (ncm.1, st2.1)
    else pure (ncm.1, st2.1)
  let pdoc : PerspectiveDoc := {
    cubeRef := dm.cubeId
    id := perspective_id
    name := name
    calculatedMembers := ncm.2
    flatAttributes := stc.1
    flatDimensions := stc.2 }
  let newPerspectives := if update then
      perspectives.map (fun x => if x.id ≠ perspective_id then x else pdoc)
    else perspectives ++ [pdoc]
  return (perspective_id, { project with perspectives := some newPerspectives })

/-! ## Spec-side definitions

Definitions in this section render the specification's wording, to be
compared against the embedded source. -/

/-- Stated from the spec: the error message of the join key-count check names
the required key count, the required key columns, the given count and the
given columns. -/
def joinKeyCountErrMsg (f : String) (nreq : Nat) (req : List String)
    (ngiven : Nat) (given : List String) : String :=
  "Relationship for feature: \"" ++ f ++ "\" requires " ++ toString nreq
    ++ (if nreq > 1 then " keys" else " key") ++ ": " ++ pyReprStrList req
    ++ " but received " ++ toString ngiven ++ ": " ++ pyReprStrList given

/-- Stated from the spec: the default ordering is by all categorical features
of the (deduplicated) select list, in their given order, quoted; no ORDER BY
clause when there are none. -/
def specDefaultOrder (dm : DataModelQ) (feature_list : List String) : String :=
  let cats := (dedupFirst feature_list).filter
    (fun nm => alGetD dm.allFeatures nm "" == "Categorical")
  if cats = [] then ""
  else " ORDER BY " ++ String.intercalate ", " (cats.map (fun nm => "`" ++ nm ++ "`"))

/-- A roleplay table is stable for the propagation pass at one level when
every pair the pass would add for that level is already recorded: the level
is skipped, or every child reference has a key in the table and all composed
pairs are already in the child's list. -/
def levelClosed (t : RpTable) (l : PLevel) : Bool :=
  if alContains t l.primaryAttribute && levelVisible l then
    let base := alGetD t l.primaryAttribute [("{0}", "")]
    ((l.keyedAttributeRef.getD []).all (fun key =>
      alContains t key.attributeId &&
      base.all (fun rp =>
        (alGetD t key.attributeId []).contains (composeRef rp key.refPath)))) &&
    ((l.attributeRef.getD []).all (fun key =>
      alContains t key.attributeId &&
      base.all (fun rp => (alGetD t key.attributeId []).contains (rp.1, ""))))
  else true

/-- A roleplay table is stable when a further pass adds no new information:
every level of every dimension is closed. -/
def tableStable (dims : List PDimension) (t : RpTable) : Bool :=
  dims.all (fun d => d.hierarchy.all (fun h => h.level.all (levelClosed t)))

/-- Whether the second string occurs in the first as a contiguous substring. -/
def strContains (s t : String) : Prop := t.data <:+: s.data

/-- Whether the first string ends with the second. -/
def strEndsWith (s t : String) : Prop := t.data <:+ s.data

/-- Executable check that the needle leads the haystack. -/
def leadMatch : List Char → List Char → Bool
  | [], _ => true
  | _ :: _, [] => false
  | a :: as, b :: bs => a == b && leadMatch as bs

/-- Executable substring check. -/
def infixMatch (needle : List Char) : List Char → Bool
  | [] => leadMatch needle []
  | l@(_ :: rest) => leadMatch needle l || infixMatch needle rest

/-- Executable version of strContains. -/
def strContainsB (s t : String) : Bool := infixMatch t.data s.data

/-- Two roleplay tables agree as key-to-pair-set maps: same keys and the same
membership of (template, ref-id) pairs at every key. -/
def SimRp (t' t : RpTable) : Prop :=
  alKeys t' = alKeys t ∧ ∀ k p, p ∈ alGetD t' k [] ↔ p ∈ alGetD t k []

/-! ## Concrete fixtures used by witnesses and counterexamples -/

/-- The keyed attribute of the one-level descriptor family: id "a", keyed by
"k". -/
def rpFamilyAttr (nm : String) : PAttribute :=
  { id := "a", name := nm, keyRef := some "k", caption := nm }

/-- The cube of the one-level family: one dataset recording one incomplete
key-ref on key "k" per requested (template, ref-id) pair. -/
def rpFamilyCube (rps : List (String × String)) : Cube :=
  { name := "m"
    dataSets := [{ keyRef := some (rps.map (fun p =>
      { id := "k", complete := "false", refPath := some p })) }] }

/-- The single level of the family, backed by attribute "a". -/
def rpFamilyLevel (vis : Bool) : PLevel :=
  { primaryAttribute := "a", properties := some { visible := some vis } }

/-- The one-level descriptor family: one keyed attribute, one cube "m", one
dimension "D" with one hierarchy "H" whose only level is backed by "a". -/
def rpFamilyProject (nm : String) (rps : List (String × String)) (vis : Bool) : ProjectDict :=
  { attributes := some { keyedAttribute := some [rpFamilyAttr nm] }
    cubes := [rpFamilyCube rps]
    dimensions := [{ name := "D", hierarchy := [{ name := "H", level := [rpFamilyLevel vis] }] }] }

/-- A level whose primary attribute "a" roleplays onto a secondary attribute
"b", for the propagation-stability counterexample. -/
def stableLevel : PLevel :=
  { primaryAttribute := "a"
    properties := some { visible := some true }
    keyedAttributeRef := some [{ attributeId := "b" }] }

/-- A one-dimension forest containing stableLevel. -/
def stableDims : List PDimension :=
  [{ name := "D", hierarchy := [{ name := "H", level := [stableLevel] }] }]

/-- A roleplay table that is stable for stableDims: both "a" and "b" carry the
identity pair, and the pass would only re-add the identity pair to "b". -/
def stableTable : RpTable := [("a", [("{0}", "")]), ("b", [("{0}", "")])]

/-- A draft project for the perspective fixtures: one dimension "D" (id "d1")
with one hierarchy "H" (id "h1") whose level is backed by attribute "a". -/
def perspProject : ProjectDict :=
  { attributes := some { keyedAttribute := some [{ id := "a", name := "City", caption := "City" }] }
    cubes := [{ id := "c1", name := "m" }]
    dimensions :=
      [{ id := "d1", name := "D", hierarchy := [{ id := "h1", name := "H", level := [rpFamilyLevel true] }] }] }

/-- The data-model collaborator for the perspective fixtures. -/
def perspModel : DataModelP :=
  { projectDict := perspProject, name := "m", cubeId := "c1", hierarchyInfo := [("H", false)] }

/-- The same collaborator with one existing perspective named "p". -/
def perspModelWithP : DataModelP :=
  { perspModel with projectDict :=
      { perspProject with perspectives := some [{ id := "p0", name := "p" }] } }

/-- The one-level project with an invisible level, a caption parameter
keeping the statement general. -/
def invisibleProject (cap : String) : ProjectDict :=
  { attributes := some { keyedAttribute := some [{ id := "a", name := "City", keyRef := some "k", caption := cap }] }
    cubes := [rpFamilyCube []]
    dimensions := [{ name := "D", hierarchy := [{ name := "H", level := [rpFamilyLevel false] }] }] }

/-- The catalog entry of the "City" level used by the join-check witness. -/
def cityInfo : CatalogEntry :=
  { feature_type := "Categorical", base_name := some "City", secondary_attribute := some false }

/-- The published two-feature catalog of the query-compiler fixtures. -/
def queryModel (pn mn : String) : DataModelQ :=
  { allFeatures := [("Region", "Categorical"), ("Sales", "Numeric")]
    publishedProjectName := pn
    name := mn }

/-- A plain (non-roleplayed) level backed by attribute "b", for the
display-name collision fixture. -/
def rpCollideLevelB : PLevel :=
  { primaryAttribute := "b", properties := some { visible := some true } }

/-- The roleplay family instance with "Ship Date"/"Order Date" roleplays of a
"Date" level, extended by a second dimension whose attribute is literally
named "Ship Date": its emission resolves to the same display name and merges
into the roleplayed entry, overwriting base_name. -/
def rpCollideProject : ProjectDict :=
  { attributes := some { keyedAttribute := some [rpFamilyAttr "Date", { id := "b", name := "Ship Date" }] }
    cubes := [rpFamilyCube [("Ship {0}", "r1"), ("Order {0}", "r2")]]
    dimensions := [{ name := "D", hierarchy := [{ name := "H", level := [rpFamilyLevel true] }] },
      { name := "E", hierarchy := [{ name := "G", level := [rpCollideLevelB] }] }] }

/-- A cube "m" (id "c1") with one incomplete key-ref on "k" carrying the
roleplay template "Ship {0}" with ref id "r1", for the roleplayed-hide
fixture. -/
def rpPerspCube : Cube :=
  { id := "c1", name := "m"
    dataSets := [{ keyRef := some [{ id := "k", complete := "false", refPath := some ("Ship {0}", "r1") }] }] }

/-- The one-level project whose "Date" level is roleplayed once; its catalog
names the roleplayed dimension "Ship D" and hierarchy "Ship H". -/
def rpPerspProject : ProjectDict :=
  { attributes := some { keyedAttribute := some [rpFamilyAttr "Date"] }
    cubes := [rpPerspCube]
    dimensions := [{ id := "d1", name := "D", hierarchy := [{ id := "h1", name := "H", level := [rpFamilyLevel true] }] }] }

/-- The data-model collaborator of the roleplayed-hide fixture. -/
def rpPerspModel : DataModelP :=
  { projectDict := rpPerspProject, name := "m", cubeId := "c1", hierarchyInfo := [("Ship H", false)] }

/-! ## Shared lemmas -/

theorem exceptBindOk {ε α β : Type} {x : Except ε α} {f : α → Except ε β} {b : β}
    (h : x >>= f = .ok b) : ∃ a, x = .ok a ∧ f a = .ok b := by
  cases x with
  | error e => simp [Bind.bind, Except.bind] at h
  | ok a => exact ⟨a, rfl, by simpa [Bind.bind, Except.bind] using h⟩

/-- Helper: the scan of _find_by_id_or_name matches first-match semantics
when every element carries the key. -/
theorem findFirstItem_eq (idk v : String) :
    ∀ items : List Pydict, (∀ item ∈ items, (alGet? item idk).isSome) →
      findFirstItem items idk v
        = .ok ((items.find? (fun item => alGet? item idk == some v)).getD []) := by
  intro items
  induction items with
  | nil => intro _; rfl
  | cons item rest ih =>
    intro h
    obtain ⟨w, hw⟩ := Option.isSome_iff_exists.mp (h item (List.mem_cons_self _ _))
    have hr := ih (fun it hit => h it (List.mem_cons_of_mem _ hit))
    by_cases hv : w = v
    · subst hv
      simp [findFirstItem, hw, List.find?_cons]
    · simp [findFirstItem, hw, List.find?_cons, hv, hr]

/-! ## Claim theorems -/

/-- C9 (amended): searching by an explicit id returns the first element whose
id_key field equals the id, ignoring item_name, and the empty dict when no
element matches - provided every element carries the id_key field; searching
with neither id nor name raises a plain Exception. -/
theorem C9_find_by_id_semantics
    (items : List Pydict) (v : String) (nameArg : Option String) (idk nk : String)
    (h : ∀ item ∈ items, (alGet? item idk).isSome) :
    _find_by_id_or_name items (some v) nameArg idk nk
      = .ok ((items.find? (fun item => alGet? item idk == some v)).getD [])
    ∧ _find_by_id_or_name items none none idk nk
      = .error (.ExceptionErr
          "Either an id or name must be passed in order to identify the item") := by
  exact ⟨findFirstItem_eq idk v items h, rfl⟩

/-- C9 counterexample: a dict lacking the id_key field makes the source raise
KeyError instead of treating the element as a non-match. -/
theorem C9_counterexample_keyerror :
    _find_by_id_or_name [[("x", "1")]] (some "1") none "id" "name"
      = .error (.KeyError "id") := rfl

/-- C9 witness. -/
theorem C9_witness :
    (∀ item ∈ ([[("id", "1")], [("id", "2"), ("name", "y")]] : List Pydict),
      (alGet? item "id").isSome)
    ∧ _find_by_id_or_name [[("id", "1")], [("id", "2"), ("name", "y")]]
        (some "2") (some "x") "id" "name" = .ok [("id", "2"), ("name", "y")] := by
  refine ⟨by decide, ?_⟩
  exact (C9_find_by_id_semantics [[("id", "1")], [("id", "2"), ("name", "y")]]
    "2" (some "x") "id" "name" (by decide)).1.trans (by rfl)

/-- C10: a bare string for feature_list or folder_list behaves exactly like
the one-element list containing it, and the feature-name filter then keeps
only entries named by that string. -/
theorem C10_string_vs_singleton
    (project : ProjectDict) (nm s : String) (folders : Option StrOrList)
    (ftype : FeatureType) (flArg : Option StrOrList) (ftype2 : FeatureType) :
    (_get_draft_features project nm (some (.str s)) folders ftype
      = _get_draft_features project nm (some (.list [s])) folders ftype)
    ∧ (_get_draft_features project nm flArg (some (.str s)) ftype2
      = _get_draft_features project nm flArg (some (.list [s])) ftype2)
    ∧ (∀ cat, _get_draft_features project nm (some (.str s)) folders ftype = .ok cat →
        ∀ kv ∈ cat, kv.1 = s) := by
  refine ⟨rfl, rfl, ?_⟩
  intro cat hok kv hmem
  have key : ∀ sd : List (String × CatalogEntry),
      kv ∈ sd.filter (fun kv =>
        (match normalizeStrOrList (some (.str s)) with
          | some fl => fl.contains kv.1 | none => true) &&
        (match normalizeStrOrList folders with
          | some fl => !(kv.2.folder.all (fun fv => !(fl.contains fv))) | none => true) &&
        (if ftype != .ALL then kv.2.feature_type == ftype.name_val else true)) →
      kv.1 = s := by
    intro sd hm
    have := (List.mem_filter.mp hm).2
    simp only [normalizeStrOrList, Bool.and_eq_true] at this
    have hcontains := this.1.1
    simpa [List.contains] using hcontains
  simp only [_get_draft_features] at hok
  obtain ⟨c1, hc1, hok⟩ := exceptBindOk hok
  obtain ⟨d1, hd1, hok⟩ := exceptBindOk hok
  split at hok
  · obtain ⟨agg, hagg, hok⟩ := exceptBindOk hok
    obtain ⟨cal, hcal, hok⟩ := exceptBindOk hok
    simp only [Pure.pure, Except.pure, Bind.bind, Except.bind, Except.ok.injEq] at hok
    exact key _ (hok ▸ hmem)
  · simp only [Pure.pure, Except.pure, Bind.bind, Except.bind, Except.ok.injEq] at hok
    exact key _ (hok ▸ hmem)

/-- C10 witness. -/
theorem C10_witness :
    (_get_draft_features (rpFamilyProject "Date" [("Ship {0}", "r1")] true) "m"
        (some (.str "Ship Date")) none .ALL
      = _get_draft_features (rpFamilyProject "Date" [("Ship {0}", "r1")] true) "m"
        (some (.list ["Ship Date"])) none .ALL)
    ∧ ∀ kv ∈ (_get_draft_features (rpFamilyProject "Date" [("Ship {0}", "r1")] true) "m"
        (some (.str "Ship Date")) none .ALL).toOption.getD [], kv.1 = "Ship Date" := by
  refine ⟨(C10_string_vs_singleton (rpFamilyProject "Date" [("Ship {0}", "r1")] true)
    "m" "Ship Date" none .ALL none .ALL).1, ?_⟩
  intro kv hmem
  exact (C10_string_vs_singleton (rpFamilyProject "Date" [("Ship {0}", "r1")] true)
    "m" "Ship Date" none .ALL none .ALL).2.2 _ rfl kv hmem

/-- C8 (amended): with update=True and no perspective of the given name the
call raises UserError; with update=False and a name collision it raises
ValueError (a plain built-in, not the UserError the spec's taxonomy assigns
to name collisions); both checks precede any mutation of the list. -/
theorem C8_name_check
    (dm : DataModelP) (name : String)
    (dims hiers cats nums : Option (List String)) (publish : Bool) (freshId : String) :
    ((∀ p ∈ dm.projectDict.perspectives.getD [], p.name ≠ name) →
      _create_perspective dm name dims hiers cats nums publish true freshId
        = .error (.UserError ("No perspective named: '" ++ name ++ "' exists")))
    ∧ ((∃ p ∈ dm.projectDict.perspectives.getD [], p.name = name) →
      _create_perspective dm name dims hiers cats nums publish false freshId
        = .error (.ValueError ("A perspective named: '" ++ name ++ "' already exists"))) := by
  constructor
  · intro h
    have hfil : (dm.projectDict.perspectives.getD []).filter (fun x => x.name == name) = [] := by
      rw [List.filter_eq_nil_iff]
      intro p hp
      simpa using h p hp
    simp [_create_perspective, hfil, Bind.bind, Except.bind]
  · intro h
    have hany : (dm.projectDict.perspectives.getD []).any (fun x => x.name == name) = true := by
      rw [List.any_eq_true]
      obtain ⟨p, hp, he⟩ := h
      exact ⟨p, hp, by simpa using he⟩
    simp [_create_perspective, hany, Bind.bind, Except.bind]

/-- C8 counterexample: the name-collision path raises ValueError, not the
UserError the claim asserts. -/
theorem C8_counterexample_valueerror :
    _create_perspective perspModelWithP "p" none none none none true false "u1"
      = .error (.ValueError "A perspective named: 'p' already exists") := rfl

/-- C8 witness. -/
theorem C8_witness :
    _create_perspective perspModelWithP "q" none none none none true true "u2"
      = .error (.UserError "No perspective named: 'q' exists")
    ∧ _create_perspective perspModelWithP "p" none none none none true false "u3"
      = .error (.ValueError "A perspective named: 'p' already exists") := by
  constructor
  · exact (C8_name_check perspModelWithP "q" none none none none true "u2").1 (by decide)
  · exact (C8_name_check perspModelWithP "p" none none none none true "u3").2
      ⟨{ id := "p0", name := "p" }, by decide, rfl⟩

/-- C7: a join feature resolving to a non-secondary hierarchy level whose key
needs two columns, given exactly one join column, raises a UserError naming
the required key count and columns as well as the given count and columns. -/
theorem C7_join_key_count_mismatch
    (project : ProjectDict) (cube_id f c k1 k2 vcol : String) (cs : List String)
    (info : CatalogEntry)
    (hft : info.feature_type = "Categorical")
    (hbn : info.base_name = some f)
    (hsec : info.secondary_attribute.getD false = false)
    (hc : c ∈ cs) :
    _check_joins project cube_id (some [f]) (some [.str c]) cs none
        [(f, ⟨[k1, k2], vcol⟩)] (some [(f, info)])
      = .error (.UserError (joinKeyCountErrMsg f 2 [k1, k2] 1 [c])) := by
  have hcs : cs.contains c = true := by
    simpa [List.contains] using hc
  simp [_check_joins, hft, hbn, hsec, hcs, hc, alSet, alContains, alUpdate, alGet?,
    joinKeyCountErrMsg, Bind.bind, Except.bind, Pure.pure, Except.pure, pyReprStrList]

/-- C7 witness. -/
theorem C7_witness :
    (("City" : String) ∈ ["cid", "City", "extra"])
    ∧ _check_joins perspProject "c1" (some ["City"]) (some [.str "City"])
        ["cid", "City", "extra"] none
        [("City", ⟨["cid", "cname"], "cname"⟩)] (some [("City", cityInfo)])
      = .error (.UserError (joinKeyCountErrMsg "City" 2 ["cid", "cname"] 1 ["City"])) := by
  refine ⟨by decide, ?_⟩
  exact C7_join_key_count_mismatch perspProject "c1" "City" "City" "cid" "cname" "cname"
    ["cid", "City", "extra"] cityInfo rfl rfl rfl (by decide)

/-- C1 counterexample: two distinct (template, ref-id) pairs that share one
naming template resolve to a single display name, so the catalog carries one
entry with base_name "Date" where the claim demands two. -/
theorem C1_counterexample_same_template :
    (_parse_categorical_features "m"
        (rpFamilyProject "Date" [("{0}", "r1"), ("{0}", "r2")] true)).map
      (fun cat => (cat.filter (fun kv => kv.2.base_name == some "Date")).length)
      = .ok 1
    ∧ (_parse_categorical_features "m"
        (rpFamilyProject "Date" [("{0}", "r1"), ("{0}", "r2")] true)).map
      (fun cat => (cat.filter (fun kv => kv.2.base_name == some "Date")).length)
      ≠ .ok 2 := by
  constructor
  · rfl
  · have h1 : (_parse_categorical_features "m"
        (rpFamilyProject "Date" [("{0}", "r1"), ("{0}", "r2")] true)).map
      (fun cat => (cat.filter (fun kv => kv.2.base_name == some "Date")).length)
      = .ok 1 := rfl
    rw [h1]
    simp

/-- C2 counterexample: the propagation pass run on an already-stable table
appends duplicate pairs, so the table is not left identical. -/
theorem C2_counterexample_duplicate_append :
    tableStable stableDims stableTable = true
    ∧ rpPass stableDims stableTable ≠ stableTable := by
  constructor
  · rfl
  · decide

/-- C3 counterexample: a level whose properties.visible is False still
contributes its primary attribute to the catalog. -/
theorem C3_counterexample_invisible_level_emitted :
    (_parse_categorical_features "m" (rpFamilyProject "City" [] false)).map
      (fun cat => alContains cat "City") = .ok true := rfl

/-- C3 (amended): properties.visible=False does not exclude a level from the
catalog; it only stops the propagation pass from pushing roleplay pairs to
the level's attached attribute refs, and the level's own primary attribute is
still emitted. -/
theorem C3_visible_gates_propagation_only :
    (∀ (t : RpTable) (l : PLevel) (p : LevelProps),
      l.properties = some p → p.visible = some false → rpPassLevel t l = t)
    ∧ (∀ cap : String,
        (_parse_categorical_features "m" (invisibleProject cap)).map
          (fun cat => alContains cat "City") = .ok true) := by
  constructor
  · intro t l p h1 h2
    simp [rpPassLevel, levelVisible, h1, h2]
  · intro cap
    rfl

/-- C3 witness. -/
theorem C3_witness :
    rpPassLevel stableTable (rpFamilyLevel false) = stableTable
    ∧ (_parse_categorical_features "m" (invisibleProject "The City")).map
        (fun cat => alContains cat "City") = .ok true := by
  exact ⟨C3_visible_gates_propagation_only.1 stableTable (rpFamilyLevel false)
    { visible := some false } rfl rfl,
    C3_visible_gates_propagation_only.2 "The City"⟩

/-- C5 counterexample: the generated WHERE clause wraps the whole conjunction
and each predicate in parentheses, so the single-parenthesis substring the
claim asserts does not occur. -/
theorem C5_counterexample_double_paren :
    (_generate_atscale_query (queryModel "proj" "mod") "1.0.0" ["Region", "Sales"]
        [("Region", .str "West")] [] [] [] [] [] [] [] [] [] [] []
        none (some 10) none true true).map
      (fun q => strContainsB q " WHERE (`Region` = 'West')") = .ok false := rfl

theorem strContains_of_left (a b t : String) (h : strContains a t) : strContains (a ++ b) t := by
  have h2 : a.data <:+: (a ++ b).data := by
    show a.data <:+: a.data ++ b.data
    exact (List.prefix_append a.data b.data).isInfix
  exact h.trans h2

theorem strContains_of_right (a b t : String) (h : strContains b t) : strContains (a ++ b) t := by
  have h2 : b.data <:+: (a ++ b).data := by
    show b.data <:+: a.data ++ b.data
    exact (List.suffix_append a.data b.data).isInfix
  exact h.trans h2

theorem strEndsWith_of_right (a b t : String) (h : strEndsWith b t) : strEndsWith (a ++ b) t := by
  have h2 : b.data <:+ (a ++ b).data := by
    show b.data <:+ a.data ++ b.data
    exact List.suffix_append a.data b.data
  exact h.trans h2

theorem strEndsWith_emptyR (a t : String) (h : strEndsWith a t) : strEndsWith (a ++ "") t := by
  show t.data <:+ a.data ++ ("" : String).data
  rw [show ("" : String).data = [] from rfl, List.append_nil]
  exact h

/-- C5 (amended): for the Region/Sales model the compiled query contains the
doubly parenthesised filter WHERE ((`Region` = 'West')) - the builder wraps
the whole conjunction and each predicate in parentheses - and ends with
LIMIT 10, whatever the version string, published project name and model name
are. -/
theorem C5_where_filter_and_limit (version pn mn : String) :
    ∃ q, _generate_atscale_query (queryModel pn mn) version ["Region", "Sales"]
        [("Region", .str "West")] [] [] [] [] [] [] [] [] [] [] []
        none (some 10) none true true = .ok q
      ∧ strContains q " WHERE ((`Region` = 'West'))"
      ∧ strEndsWith q "LIMIT 10" := by
  refine ⟨_, rfl, ?_, ?_⟩
  · refine strContains_of_left _ _ _ ?_
    refine strContains_of_left _ _ _ ?_
    refine strContains_of_left _ _ _ ?_
    refine strContains_of_right _ _ _ ?_
    exact List.infix_refl _
  · refine strEndsWith_emptyR _ _ ?_
    refine strEndsWith_of_right _ _ _ ?_
    exact ⟨[' '], rfl⟩

/-- Helper: under the catalog's feature_type invariant, the source's
upper-cased comparison agrees with the spec's direct comparison. -/
theorem pyToUpper_pred_eq (dm : DataModelQ)
    (htypes : ∀ kv ∈ dm.allFeatures, kv.2 = "Categorical" ∨ kv.2 = "Numeric") (nm : String) :
    (pyToUpper (alGetD dm.allFeatures nm "") == FeatureType.CATEGORICAL.pyName)
      = (alGetD dm.allFeatures nm "" == "Categorical") := by
  unfold alGetD
  cases halg : alGet? dm.allFeatures nm with
  | none => rfl
  | some v =>
    obtain ⟨kv, hkv, hv⟩ :
        ∃ kv, dm.allFeatures.find? (fun kv => kv.1 == nm) = some kv ∧ kv.2 = v := by
      unfold alGet? at halg
      cases hf : dm.allFeatures.find? (fun kv => kv.1 == nm) with
      | none => rw [hf] at halg; simp at halg
      | some kv => rw [hf] at halg; simp at halg; exact ⟨kv, rfl, halg⟩
    have hmem : kv ∈ dm.allFeatures := List.mem_of_find?_eq_some hkv
    rcases htypes kv hmem with h | h <;> rw [← hv, h] <;> rfl

/-- C6: with order_by omitted, the compiled query's ORDER BY clause is exactly
the spec's default - the categorical features of the deduplicated feature
list, quoted, in their given order, and no clause at all when there are none -
assuming the published catalog types every feature Categorical or Numeric. -/
theorem C6_default_order_by_categoricals
    (dm : DataModelQ) (version : String) (feature_list : List String)
    (fe fg fl2 fge fle fne : List (String × PyVal)) (fin : List (String × List PyVal))
    (fb : List (String × (PyVal × PyVal))) (flk frlk : List (String × String))
    (fn fnn : List String) (limit : Option Int) (comment : Option String)
    (ua ga : Bool) (q : String)
    (htypes : ∀ kv ∈ dm.allFeatures, kv.2 = "Categorical" ∨ kv.2 = "Numeric")
    (hok : _generate_atscale_query dm version feature_list fe fg fl2 fge fle fne fin fb
      flk frlk fn fnn none limit comment ua ga = .ok q) :
    ∃ fs, _filter_string (dm.allFeatures.map (fun kv => kv.1)) fe fg fl2 fge fle fne fin fb
        flk frlk fn fnn = .ok fs
      ∧ q = "/* AtScale AI-Link Library Version: " ++ version ++ " */ " ++ "SELECT"
        ++ (if ua then "" else " /* use_aggs(false) */")
        ++ (if ga then "" else " /* generate_aggs(false) */")
        ++ (" " ++ String.intercalate ", "
            ((dedupFirst feature_list).map (fun x => "`" ++ x ++ "`")))
        ++ " FROM `" ++ dm.publishedProjectName ++ "`.`" ++ dm.name ++ "`"
        ++ fs ++ specDefaultOrder dm feature_list
        ++ limitString limit ++ commentString comment := by
  simp only [_generate_atscale_query, Option.getD_none, List.filter_nil, List.map_nil,
    ne_eq, not_true_eq_false] at hok
  obtain ⟨u1, hu1, hok⟩ := exceptBindOk hok
  obtain ⟨u2, hu2, hok⟩ := exceptBindOk hok
  obtain ⟨u3, hu3, hok⟩ := exceptBindOk hok
  obtain ⟨fs, hfs, hok⟩ := exceptBindOk hok
  simp only [Pure.pure, Except.pure, Except.ok.injEq] at hok
  refine ⟨fs, hfs, ?_⟩
  refine hok.symm.trans ?_
  simp only [Bool.false_eq_true, if_false, pyToUpper_pred_eq dm htypes, specDefaultOrder]
  by_cases hc : (dedupFirst feature_list).filter
      (fun nm => alGetD dm.allFeatures nm "" == "Categorical") = []
  · simp [hc]
  · simp [hc, List.map_eq_nil_iff]

/-- C6 witness. -/
theorem C6_witness :
    (∀ kv ∈ (queryModel "proj" "mod").allFeatures, kv.2 = "Categorical" ∨ kv.2 = "Numeric")
    ∧ _generate_atscale_query (queryModel "proj" "mod") "1.0" ["Region", "Sales", "Region"]
        [] [] [] [] [] [] [] [] [] [] [] [] none none none true true
      = .ok ("/* AtScale AI-Link Library Version: 1.0 */ SELECT `Region`, `Sales`"
          ++ " FROM `proj`.`mod` ORDER BY `Region`")
    ∧ ∃ fs, _filter_string ((queryModel "proj" "mod").allFeatures.map (fun kv => kv.1))
        [] [] [] [] [] [] [] [] [] [] [] [] = .ok fs
      ∧ ("/* AtScale AI-Link Library Version: 1.0 */ SELECT `Region`, `Sales`"
          ++ " FROM `proj`.`mod` ORDER BY `Region`" : String)
        = "/* AtScale AI-Link Library Version: 1.0 */ " ++ "SELECT"
        ++ (if true then "" else " /* use_aggs(false) */")
        ++ (if true then "" else " /* generate_aggs(false) */")
        ++ (" " ++ String.intercalate ", "
            ((dedupFirst ["Region", "Sales", "Region"]).map (fun x => "`" ++ x ++ "`")))
        ++ " FROM `" ++ (queryModel "proj" "mod").publishedProjectName ++ "`.`"
        ++ (queryModel "proj" "mod").name ++ "`"
        ++ fs ++ specDefaultOrder (queryModel "proj" "mod") ["Region", "Sales", "Region"]
        ++ limitString none ++ commentString none := by
  refine ⟨by decide, rfl, ?_⟩
  have h := C6_default_order_by_categoricals (queryModel "proj" "mod") "1.0"
    ["Region", "Sales", "Region"] [] [] [] [] [] [] [] [] [] [] [] [] none none true true
    ("/* AtScale AI-Link Library Version: 1.0 */ SELECT `Region`, `Sales`"
      ++ " FROM `proj`.`mod` ORDER BY `Region`")
    (by decide) rfl
  obtain ⟨fs, hfs, hq⟩ := h
  refine ⟨fs, hfs, ?_⟩
  refine hq.trans ?_
  rfl

theorem alContains_iff {α : Type} (m : List (String × α)) (k : String) :
    alContains m k = true ↔ k ∈ alKeys m := by
  simp [alContains, alKeys, List.any_eq_true, List.mem_map]

theorem alGet?_isSome_iff {α : Type} (m : List (String × α)) (k : String) :
    (alGet? m k).isSome ↔ alContains m k = true := by
  simp [alGet?, alContains, List.find?_isSome, List.any_eq_true]

theorem alGet?_none_of_not_contains {α : Type} {m : List (String × α)} {k : String}
    (h : alContains m k = false) : alGet? m k = none := by
  cases halg : alGet? m k with
  | none => rfl
  | some v =>
    have hs : (alGet? m k).isSome := by rw [halg]; rfl
    rw [alGet?_isSome_iff, h] at hs
    cases hs

theorem alGetD_eq_of_contains {α : Type} {m : List (String × α)} {k : String}
    (h : alContains m k = true) (d1 d2 : α) : alGetD m k d1 = alGetD m k d2 := by
  have hs : (alGet? m k).isSome := (alGet?_isSome_iff m k).mpr h
  cases halg : alGet? m k with
  | none => rw [halg] at hs; cases hs
  | some v => simp [alGetD, halg]

theorem alGet?_cons {α : Type} (kv : String × α) (m : List (String × α)) (k' : String) :
    alGet? (kv :: m) k' = if kv.1 == k' then some kv.2 else alGet? m k' := by
  by_cases h : (kv.1 == k') = true
  · simp [alGet?, List.find?_cons_of_pos _ h, h]
  · have h' : ¬ ((fun x : String × α => x.1 == k') kv = true) := h
    have h2 : (kv.1 == k') = false := by simpa using h
    simp [alGet?, List.find?_cons_of_neg _ h', h2]

theorem alGet?_map_append (m : RpTable) (k : String) (v : String × String) (k' : String) :
    alGet? (m.map (fun kv => if kv.1 == k then (kv.1, kv.2 ++ [v]) else kv)) k'
      = (alGet? m k').map (fun l => if k' = k then l ++ [v] else l) := by
  induction m with
  | nil => rfl
  | cons hd tl ih =>
    obtain ⟨a, l⟩ := hd
    by_cases hak : a = k
    · subst hak
      by_cases hak' : a = k'
      · subst hak'
        simp [alGet?_cons]
      · have h2 : (a == k') = false := by simpa using hak'
        simp only [List.map_cons]
        rw [if_pos (show (a == a) = true by simp)]
        rw [alGet?_cons, alGet?_cons]
        simp only [h2, if_false]
        exact ih
    · have h3 : (a == k) = false := by simpa using hak
      simp only [List.map_cons]
      rw [if_neg (show ¬ ((a == k) = true) by simp [hak])]
      rw [alGet?_cons, alGet?_cons]
      by_cases hak' : a = k'
      · subst hak'
        simp [alGet?_cons, hak]
      · have h4 : (a == k') = false := by simpa using hak'
        simp only [h4, if_false]
        exact ih

theorem alKeys_map_append (m : RpTable) (k : String) (v : String × String) :
    alKeys (m.map (fun kv => if kv.1 == k then (kv.1, kv.2 ++ [v]) else kv)) = alKeys m := by
  unfold alKeys
  rw [List.map_map]
  apply List.map_congr_left
  intro kv _
  show ((if kv.1 == k then (kv.1, kv.2 ++ [v]) else kv)).1 = kv.1
  split <;> rfl

theorem sim_alAppendAt {t' t : RpTable} {k : String} {p : String × String}
    (hsim : SimRp t' t) (hk : alContains t k = true) (hp : p ∈ alGetD t k []) :
    SimRp (alAppendAt t' k p) t := by
  have hk' : alContains t' k = true := by
    rw [alContains_iff, hsim.1, ← alContains_iff]; exact hk
  unfold alAppendAt
  rw [if_pos hk']
  constructor
  · rw [alKeys_map_append]; exact hsim.1
  · intro k' q
    unfold alGetD
    rw [alGet?_map_append]
    cases halg : alGet? t' k' with
    | none =>
      have hnone : alGet? t k' = none := by
        apply alGet?_none_of_not_contains
        have : alContains t' k' = false := by
          cases hcc : alContains t' k' with
          | false => rfl
          | true =>
            have := (alGet?_isSome_iff t' k').mpr hcc
            rw [halg] at this
            cases this
        rw [alContains_iff] at *
        cases hcc2 : alContains t k' with
        | false => rfl
        | true =>
          exfalso
          rw [alContains_iff, ← hsim.1, ← alContains_iff] at hcc2
          rw [hcc2] at this
          cases this
      simp [hnone]
    | some l =>
      simp only [Option.map_some']
      have hiff := hsim.2 k' q
      rw [show alGetD t' k' [] = l from by simp [alGetD, halg]] at hiff
      by_cases hkk : k' = k
      · subst hkk
        rw [if_pos rfl]
        simp only [Option.getD_some, List.mem_append, List.mem_singleton]
        constructor
        · rintro (hin | hqp)
          · exact hiff.mp hin
          · subst hqp; exact hp
        · intro hin
          exact Or.inl (hiff.mpr hin)
      · rw [if_neg hkk]
        simpa using hiff

theorem foldl_sim {α : Type} {t : RpTable} (f : RpTable → α → RpTable) (xs : List α)
    (hf : ∀ t' a, a ∈ xs → SimRp t' t → SimRp (f t' a) t) :
    ∀ t', SimRp t' t → SimRp (xs.foldl f t') t := by
  induction xs with
  | nil => intro t' h; exact h
  | cons x rest ih =>
    intro t' h
    exact ih (fun t'' a ha hs => hf t'' a (List.mem_cons_of_mem _ ha) hs) _
      (hf t' x (List.mem_cons_self _ _) h)

theorem mem_pairs_of_contains {t : RpTable} {k : String} {p : String × String}
    (hct : alContains t k = true)
    (hp : (alGetD t k []).contains p = true) : p ∈ alGetD t k [] := by
  simpa using hp

theorem rpPassLevel_sim {t t' : RpTable} {l : PLevel}
    (hcl : levelClosed t l = true) (hsim : SimRp t' t) : SimRp (rpPassLevel t' l) t := by
  unfold rpPassLevel
  cases hc : alContains t' l.primaryAttribute with
  | false =>
    simp only [Bool.false_eq_true, if_false]
    exact hsim
  | true =>
    have hct : alContains t l.primaryAttribute = true := by
      rw [alContains_iff, ← hsim.1, ← alContains_iff]
      exact hc
    rw [if_pos rfl]
    dsimp only
    cases hvis : levelVisible l with
    | false =>
      simp only [Bool.false_eq_true, if_false]
      exact hsim
    | true =>
      rw [if_pos rfl]
      unfold levelClosed at hcl
      rw [if_pos (by rw [hct, hvis]; rfl)] at hcl
      rw [Bool.and_eq_true] at hcl
      obtain ⟨hclk, hcla⟩ := hcl
      have hbase : ∀ rp ∈ alGetD t' l.primaryAttribute [("{0}", "")],
          rp ∈ alGetD t l.primaryAttribute [("{0}", "")] := by
        intro rp hrp
        rw [alGetD_eq_of_contains hc [("{0}", "")] []] at hrp
        have h2 := (hsim.2 l.primaryAttribute rp).mp hrp
        rw [alGetD_eq_of_contains hct [("{0}", "")] []]
        exact h2
      have hkstep : ∀ keys : List KeyedAttributeRef, l.keyedAttributeRef = some keys →
          ∀ t0, SimRp t0 t →
          SimRp (keys.foldl (fun tt key =>
            (alGetD t' l.primaryAttribute [("{0}", "")]).foldl
              (fun tt rp => alAppendAt tt key.attributeId (composeRef rp key.refPath)) tt) t0) t := by
        intro keys hka t0 hsim0
        rw [hka] at hclk
        simp only [Option.getD_some, List.all_eq_true] at hclk
        refine foldl_sim _ keys ?_ t0 hsim0
        intro t2 key hkey hsim2
        have hkk := hclk key hkey
        rw [Bool.and_eq_true] at hkk
        obtain ⟨hck, hcompose⟩ := hkk
        simp only [List.all_eq_true] at hcompose
        refine foldl_sim _ (alGetD t' l.primaryAttribute [("{0}", "")]) ?_ t2 hsim2
        intro t3 rp hrp hsim3
        exact sim_alAppendAt hsim3 hck
          (mem_pairs_of_contains hck (hcompose rp (hbase rp hrp)))
      have hastep : ∀ keys2 : List AttributeRef, l.attributeRef = some keys2 →
          ∀ t0, SimRp t0 t →
          SimRp (keys2.foldl (fun tt key =>
            (alGetD t' l.primaryAttribute [("{0}", "")]).foldl
              (fun tt rp => alAppendAt tt key.attributeId (rp.1, "")) tt) t0) t := by
        intro keys2 hka2 t0 hsim0
        rw [hka2] at hcla
        simp only [Option.getD_some, List.all_eq_true] at hcla
        refine foldl_sim _ keys2 ?_ t0 hsim0
        intro t2 key hkey hsim2
        have hkk := hcla key hkey
        rw [Bool.and_eq_true] at hkk
        obtain ⟨hck, hcompose⟩ := hkk
        simp only [List.all_eq_true] at hcompose
        refine foldl_sim _ (alGetD t' l.primaryAttribute [("{0}", "")]) ?_ t2 hsim2
        intro t3 rp hrp hsim3
        exact sim_alAppendAt hsim3 hck
          (mem_pairs_of_contains hck (hcompose rp (hbase rp hrp)))
      cases hka : l.keyedAttributeRef with
      | none =>
        dsimp only
        cases hka2 : l.attributeRef with
        | none => exact hsim
        | some keys2 => exact hastep keys2 hka2 t' hsim
      | some keys =>
        dsimp only
        cases hka2 : l.attributeRef with
        | none => exact hkstep keys hka t' hsim
        | some keys2 => exact hastep keys2 hka2 _ (hkstep keys hka t' hsim)

/-- C2 (amended): running one more propagation pass on a stable roleplay
table (one where every pair the pass would add is already recorded) preserves
the key set and every id's set of (template, ref-id) pairs; the lists
themselves may still gain duplicate pairs, so the table need not be
identical (see the counterexample). -/
theorem C2_stable_pass_preserves_pairs (dims : List PDimension) (t : RpTable)
    (hstable : tableStable dims t = true) :
    alKeys (rpPass dims t) = alKeys t
    ∧ ∀ k p, p ∈ alGetD (rpPass dims t) k [] ↔ p ∈ alGetD t k [] := by
  unfold tableStable at hstable
  simp only [List.all_eq_true] at hstable
  have hsim : SimRp (rpPass dims t) t := by
    unfold rpPass
    refine foldl_sim _ dims ?_ t ⟨rfl, fun _ _ => Iff.rfl⟩
    intro t1 d hd hsim1
    refine foldl_sim _ d.hierarchy ?_ t1 hsim1
    intro t2 h hh hsim2
    refine foldl_sim _ h.level ?_ t2 hsim2
    intro t3 l hl hsim3
    exact rpPassLevel_sim (hstable d hd h hh l hl) hsim3
  exact hsim

/-- C2 witness: a concrete stable table through the amended theorem. -/
theorem C2_witness :
    tableStable stableDims stableTable = true
    ∧ alKeys (rpPass stableDims stableTable) = alKeys stableTable
    ∧ ∀ p : String × String,
        p ∈ alGetD (rpPass stableDims stableTable) "b" [] ↔ p ∈ alGetD stableTable "b" [] := by
  refine ⟨by decide, ?_, ?_⟩
  · exact (C2_stable_pass_preserves_pairs stableDims stableTable (by decide)).1
  · exact fun p => (C2_stable_pass_preserves_pairs stableDims stableTable (by decide)).2 "b" p

theorem alKeys_map_snd {α β : Type} (g : α → β) (m : List (String × α)) :
    alKeys (m.map (fun kv => (kv.1, g kv.2))) = alKeys m := by
  unfold alKeys
  rw [List.map_map]
  rfl

theorem foldAppendAtK (ps : List (String × String)) :
    ∀ l, List.foldl (fun acc p => alAppendAt acc "k" p) [("k", l)] ps = [("k", l ++ ps)] := by
  induction ps with
  | nil => intro l; simp
  | cons p rest ih =>
    intro l
    have h1 : alAppendAt [("k", l)] "k" p = [("k", l ++ [p])] := rfl
    calc List.foldl (fun acc p => alAppendAt acc "k" p) [("k", l)] (p :: rest)
        = List.foldl (fun acc p => alAppendAt acc "k" p) [("k", l ++ [p])] rest := by
          rw [List.foldl_cons, h1]
      _ = [("k", (l ++ [p]) ++ rest)] := ih (l ++ [p])
      _ = [("k", l ++ p :: rest)] := by simp

theorem buildRoleplayRefs_family (p : String × String) (rest : List (String × String)) :
    buildRoleplayRefs (rpFamilyCube (p :: rest)) = [("k", p :: rest)] := by
  have h0 : buildRoleplayRefs (rpFamilyCube (p :: rest))
      = List.foldl (fun acc q => alAppendAt acc "k" q) [] (p :: rest) := by
    show List.foldl
        (fun (acc : RpTable) (key : KeyRef) =>
          if key.complete == "false" then
            alAppendAt acc key.id (match key.refPath with | some nr => nr | none => ("{0}", ""))
          else acc)
        [] ((p :: rest).map (fun q =>
          ({ id := "k", complete := "false", refPath := some q } : KeyRef)))
      = _
    rw [List.foldl_map]
    rfl
  rw [h0, List.foldl_cons]
  have h1 : alAppendAt ([] : RpTable) "k" p = [("k", [p])] := rfl
  rw [h1, foldAppendAtK rest [p]]
  simp

theorem emitPrimary_family_fresh (nm : String) (q : String × String)
    (acc : List (String × RoleplayingDict))
    (hmem : pyReplaceAll q.1 "{0}" nm ∉ alKeys acc) :
    ∃ rd : RoleplayingDict,
      emitPrimary [("a", ⟨rpFamilyAttr nm, none, none⟩)] [("a", rpFamilyAttr nm)]
          "D" "H" "" (rpFamilyLevel true) true q.1 q.2 acc
        = acc ++ [(pyReplaceAll q.1 "{0}" nm, rd)]
      ∧ rd.base_name = some nm := by
  have hcont : alContains acc (pyReplaceAll q.1 "{0}" nm) = false := by
    rw [Bool.eq_false_iff]
    intro h
    exact hmem ((alContains_iff acc _).mp h)
  have hget : alGet? acc (pyReplaceAll q.1 "{0}" nm) = none :=
    alGet?_none_of_not_contains hcont
  have hname : (alGetD [("a", (⟨rpFamilyAttr nm, none, none⟩ : RefEntry))] "a"
      ⟨defaultAttr, none, none⟩).attr.name = nm := rfl
  have hid : (alGetD [("a", (⟨rpFamilyAttr nm, none, none⟩ : RefEntry))] "a"
      ⟨defaultAttr, none, none⟩).attr.id = "a" := rfl
  have hcap : (alGetD [("a", rpFamilyAttr nm)] "a" defaultAttr).caption = nm := rfl
  refine ⟨{ level_type := some "Regular"
            id := "a"
            roleplay_expression := some q.1
            roleplay_ref_id := some q.2
            roleplayed_name := pyReplaceAll q.1 "{0}" nm
            folder := some [""]
            queryable := some true
            roleplayed_hierarchy := some [pyReplaceAll q.1 "{0}" "H"]
            roleplayed_dimension := some (pyReplaceAll q.1 "{0}" "D")
            roleplayed_caption := some (pyReplaceAll q.1 "{0}" nm)
            base_name := some nm
            base_hierarchy := some ["H"]
            base_dimension := some "D" }, ?_, rfl⟩
  unfold emitPrimary
  rw [show (rpFamilyLevel true).primaryAttribute = "a" from rfl]
  rw [show (rpFamilyLevel true).properties = some ({ visible := some true } : LevelProps)
    from rfl]
  dsimp only
  rw [hname, hid, hcap, hget]
  unfold alSet
  rw [hcont]
  simp only [Bool.false_eq_true, if_false]

theorem parse_family_shape (nm : String) (rps : List (String × String)) :
    _parse_categorical_features "m" (rpFamilyProject nm rps true)
      = .ok ((emitAll [("a", ⟨rpFamilyAttr nm, none, none⟩)] [("a", rpFamilyAttr nm)]
            (rpFixpoint (rpFamilyProject nm rps true).dimensions
              (buildRoleplayIds [rpFamilyAttr nm] (buildRoleplayRefs (rpFamilyCube rps))) 1)
            (rpFamilyProject nm rps true).dimensions).map
          (fun kv => (kv.1, convertEntry [("a", rpFamilyAttr nm)] kv.2))) := rfl

theorem parse_family_pipeline (nm : String) (p : String × String)
    (rest : List (String × String)) :
    _parse_categorical_features "m" (rpFamilyProject nm (p :: rest) true)
      = .ok (((p :: rest).foldl (fun d rp =>
            emitPrimary [("a", ⟨rpFamilyAttr nm, none, none⟩)] [("a", rpFamilyAttr nm)]
              "D" "H" "" (rpFamilyLevel true) true rp.1 rp.2 d) []).map
          (fun kv => (kv.1, convertEntry [("a", rpFamilyAttr nm)] kv.2))) := by
  rw [parse_family_shape, buildRoleplayRefs_family]
  rfl

theorem emitFold_family (nm : String) (rps : List (String × String)) :
    ∀ (acc : List (String × RoleplayingDict)),
      (∀ q ∈ rps, pyReplaceAll q.1 "{0}" nm ∉ alKeys acc) →
      (rps.map (fun q => pyReplaceAll q.1 "{0}" nm)).Nodup →
      alKeys (rps.foldl (fun d rp =>
          emitPrimary [("a", ⟨rpFamilyAttr nm, none, none⟩)] [("a", rpFamilyAttr nm)]
            "D" "H" "" (rpFamilyLevel true) true rp.1 rp.2 d) acc)
        = alKeys acc ++ rps.map (fun q => pyReplaceAll q.1 "{0}" nm)
      ∧ ∀ kv ∈ rps.foldl (fun d rp =>
          emitPrimary [("a", ⟨rpFamilyAttr nm, none, none⟩)] [("a", rpFamilyAttr nm)]
            "D" "H" "" (rpFamilyLevel true) true rp.1 rp.2 d) acc,
          kv ∈ acc ∨ kv.2.base_name = some nm := by
  induction rps with
  | nil =>
    intro acc _ _
    exact ⟨by simp, fun kv hkv => Or.inl hkv⟩
  | cons q rest ih =>
    intro acc hfresh hnd
    obtain ⟨rd, hstep, hbase⟩ :=
      emitPrimary_family_fresh nm q acc (hfresh q (List.mem_cons_self q rest))
    simp only [List.foldl_cons]
    rw [hstep]
    have hfresh' : ∀ q' ∈ rest,
        pyReplaceAll q'.1 "{0}" nm ∉ alKeys (acc ++ [(pyReplaceAll q.1 "{0}" nm, rd)]) := by
      intro q' hq' hmem
      unfold alKeys at hmem
      rw [List.map_append] at hmem
      rcases List.mem_append.mp hmem with h | h
      · exact hfresh q' (List.mem_cons_of_mem q hq') h
      · have heq : pyReplaceAll q'.1 "{0}" nm = pyReplaceAll q.1 "{0}" nm := by
          simpa using h
        simp only [List.map_cons, List.nodup_cons] at hnd
        refine hnd.1 ?_
        have hmm : pyReplaceAll q'.1 "{0}" nm
            ∈ rest.map (fun p => pyReplaceAll p.1 "{0}" nm) :=
          List.mem_map_of_mem _ hq'
        rwa [heq] at hmm
    have hnd' : (rest.map (fun p => pyReplaceAll p.1 "{0}" nm)).Nodup := by
      simp only [List.map_cons, List.nodup_cons] at hnd
      exact hnd.2
    obtain ⟨hkeys, hmem⟩ := ih (acc ++ [(pyReplaceAll q.1 "{0}" nm, rd)]) hfresh' hnd'
    constructor
    · rw [hkeys]
      simp [alKeys]
    · intro kv hkv
      rcases hmem kv hkv with h | h
      · rcases List.mem_append.mp h with h' | h'
        · exact Or.inl h'
        · right
          have hkv2 : kv = (pyReplaceAll q.1 "{0}" nm, rd) := by simpa using h'
          rw [hkv2]
          exact hbase
      · exact Or.inr h

theorem convertEntry_base_name (info : List (String × PAttribute)) (rd : RoleplayingDict) :
    (convertEntry info rd).base_name = some (rd.base_name.getD "") := by
  unfold convertEntry
  dsimp only
  split <;> rfl

/-- C1 (amended): in the one-level descriptor family, when the level's
primary attribute carries N independent roleplay references whose RESOLVED
display names (template with "{0}" replaced by the attribute name) are
pairwise distinct, the catalog returned by _parse_categorical_features has
exactly those N resolved names as (pairwise-distinct) keys, every entry
carries base_name equal to the attribute's name, and exactly N entries carry
that base_name.  The distinctness requirement cannot be dropped or weakened:
N distinct (template, ref-id) pairs sharing a template collapse onto one key
(see the counterexample), and beyond the family the resolved names must also
be absent among the display names the model emits for other attributes - the
merge of lines 524-534 overwrites the scalar base_name - which the last two
conjuncts record on rpCollideProject, where an attribute literally named
"Ship Date" in a second dimension absorbs the "Ship Date" roleplay entry and
leaves one entry with base_name "Date" where two roleplays exist. -/
theorem C1_roleplay_fanout (nm : String) (rps : List (String × String))
    (hne : rps ≠ [])
    (hnd : (rps.map (fun p => pyReplaceAll p.1 "{0}" nm)).Nodup) :
    (∃ cat, _parse_categorical_features "m" (rpFamilyProject nm rps true) = .ok cat
      ∧ alKeys cat = rps.map (fun p => pyReplaceAll p.1 "{0}" nm)
      ∧ (∀ kv ∈ cat, kv.2.base_name = some nm)
      ∧ (cat.filter (fun kv => kv.2.base_name == some nm)).length = rps.length
      ∧ (alKeys cat).Nodup)
    ∧ (_parse_categorical_features "m" rpCollideProject).map
        (fun cat => (cat.filter (fun kv => kv.2.base_name == some "Date")).length) = .ok 1
    ∧ (_parse_categorical_features "m" rpCollideProject).map
        (fun cat => (cat.filter (fun kv => kv.2.base_name == some "Date")).length)
      ≠ .ok 2 := by
  refine ⟨?_, rfl, ?_⟩
  case refine_2 =>
    have hK : (_parse_categorical_features "m" rpCollideProject).map
        (fun cat => (cat.filter (fun kv => kv.2.base_name == some "Date")).length)
        = .ok 1 := rfl
    rw [hK]
    simp
  obtain ⟨p, rest, rfl⟩ := List.exists_cons_of_ne_nil hne
  obtain ⟨hkeys, hmem⟩ := emitFold_family nm (p :: rest) []
    (fun q hq h => by simp [alKeys] at h) hnd
  have hall : ∀ kv ∈ ((p :: rest).foldl (fun d rp =>
      emitPrimary [("a", ⟨rpFamilyAttr nm, none, none⟩)] [("a", rpFamilyAttr nm)]
        "D" "H" "" (rpFamilyLevel true) true rp.1 rp.2 d) []).map
      (fun kv => (kv.1, convertEntry [("a", rpFamilyAttr nm)] kv.2)),
      kv.2.base_name = some nm := by
    intro kv hkv
    obtain ⟨kv₀, hkv₀, rfl⟩ := List.mem_map.mp hkv
    have hb : kv₀.2.base_name = some nm := by
      rcases hmem kv₀ hkv₀ with h | h
      · exact absurd h (List.not_mem_nil kv₀)
      · exact h
    show (convertEntry [("a", rpFamilyAttr nm)] kv₀.2).base_name = some nm
    rw [convertEntry_base_name, hb]
    rfl
  refine ⟨((p :: rest).foldl (fun d rp =>
      emitPrimary [("a", ⟨rpFamilyAttr nm, none, none⟩)] [("a", rpFamilyAttr nm)]
        "D" "H" "" (rpFamilyLevel true) true rp.1 rp.2 d) []).map
      (fun kv => (kv.1, convertEntry [("a", rpFamilyAttr nm)] kv.2)),
    parse_family_pipeline nm p rest, ?_, hall, ?_, ?_⟩
  · rw [alKeys_map_snd, hkeys]
    simp [alKeys]
  · have hfeq : (((p :: rest).foldl (fun d rp =>
        emitPrimary [("a", ⟨rpFamilyAttr nm, none, none⟩)] [("a", rpFamilyAttr nm)]
          "D" "H" "" (rpFamilyLevel true) true rp.1 rp.2 d) []).map
        (fun kv => (kv.1, convertEntry [("a", rpFamilyAttr nm)] kv.2))).filter
        (fun kv => kv.2.base_name == some nm)
        = ((p :: rest).foldl (fun d rp =>
        emitPrimary [("a", ⟨rpFamilyAttr nm, none, none⟩)] [("a", rpFamilyAttr nm)]
          "D" "H" "" (rpFamilyLevel true) true rp.1 rp.2 d) []).map
        (fun kv => (kv.1, convertEntry [("a", rpFamilyAttr nm)] kv.2)) := by
      rw [List.filter_eq_self]
      intro kv hkv
      simp [hall kv hkv]
    rw [hfeq, List.length_map]
    have hlen := congrArg List.length hkeys
    simp only [alKeys, List.length_map, List.length_append, List.map_nil,
      List.length_nil, List.length_cons] at hlen
    simp only [List.length_cons]
    omega
  · rw [alKeys_map_snd, hkeys]
    simpa [alKeys] using hnd

/-- C1 witness: two roleplays of a "Date" attribute with distinct resolved
names through the amended theorem. -/
theorem C1_witness :
    ([("Ship {0}", "r1"), ("Order {0}", "r2")] : List (String × String)) ≠ []
    ∧ (([("Ship {0}", "r1"), ("Order {0}", "r2")] : List (String × String)).map
        (fun p => pyReplaceAll p.1 "{0}" "Date")).Nodup
    ∧ ∃ cat, _parse_categorical_features "m"
        (rpFamilyProject "Date" [("Ship {0}", "r1"), ("Order {0}", "r2")] true) = .ok cat
      ∧ alKeys cat = ["Ship Date", "Order Date"]
      ∧ (∀ kv ∈ cat, kv.2.base_name = some "Date")
      ∧ (cat.filter (fun kv => kv.2.base_name == some "Date")).length = 2
      ∧ (alKeys cat).Nodup := by
  refine ⟨by decide, by decide, ?_⟩
  obtain ⟨cat, h1, h2, h3, h4, h5⟩ := (C1_roleplay_fanout "Date"
    [("Ship {0}", "r1"), ("Order {0}", "r2")] (by decide) (by decide)).1
  refine ⟨cat, h1, ?_, h3, ?_, h5⟩
  · rw [h2]
    rfl
  · rw [h4]
    rfl

/-- C4 counterexample: a roleplayed dimension hide ("Ship D") followed by the
matching roleplayed hierarchy hide ("Ship H") leaves the single dimension
node WITH a nested flat-hierarchy-ref entry: hidden_dimensions holds the
request name "Ship D" while the scan of lines 1106-1110 compares the base
object name "D", so the hierarchy hide is not treated as covered by the
ancestor and merges into the node by id and roleplay ref path. -/
theorem C4_counterexample_roleplayed_hier :
    (_create_perspective rpPerspModel "p" (some ["Ship D"]) (some ["Ship H"]) none none
        false false "u1").map
      (fun r => (r.2.perspectives.getD []).map (fun pd =>
        pd.flatDimensions.map (fun n => (n.id, n.refPath, n.flatHierarchyRef))))
      = .ok [[("d1", some "r1", some [{ id := "h1", flatLevelRef := none, visible := false }])]]
    ∧ (_create_perspective rpPerspModel "p" (some ["Ship D"]) (some ["Ship H"]) none none
        false false "u1").map
      (fun r => (r.2.perspectives.getD []).map (fun pd =>
        pd.flatDimensions.map (fun n => (n.id, n.refPath, n.flatHierarchyRef))))
      ≠ .ok [[("d1", some "r1", none)]] := by
  constructor
  · rfl
  · have hK : (_create_perspective rpPerspModel "p" (some ["Ship D"]) (some ["Ship H"])
        none none false false "u1").map
      (fun r => (r.2.perspectives.getD []).map (fun pd =>
        pd.flatDimensions.map (fun n => (n.id, n.refPath, n.flatHierarchyRef))))
      = .ok [[("d1", some "r1", some [{ id := "h1", flatLevelRef := none, visible := false }])]] := rfl
    rw [hK]
    simp

/-- C4 (amended): for UN-ROLEPLAYED hide requests - in a data model where the
request name D resolves un-roleplayed to a dimension object dimD, the request
name H resolves un-roleplayed to a hierarchy that only dimension-named-D
objects carry, and H is a known hierarchy - calling _create_perspective with
dimensions=[D] and hierarchies=[H] yields a perspective document whose
flat-dimension list holds exactly one node for dimD: hidden, with no ref-path
and no flat-hierarchy-ref entry (the ancestor dimension hide already covers
H, whose hide request becomes a no-op), so no duplicate overlay node is
created.  For roleplayed requests the no-nested-entry half of the original
claim is false: hidden_dimensions records the roleplayed request name while
the hierarchy scan compares base object names, so the already-hidden
dimension is not skipped and its node gains a nested flat-hierarchy-ref (see
the counterexample). -/
theorem C4_dim_hide_covers_hier
    (dm : DataModelP) (name D H freshId : String)
    (numericInfo catInfo : List (String × CatalogEntry)) (cube : Cube) (dimD : PDimension)
    (hp : (dm.projectDict.perspectives.getD []).any (fun x => x.name == name) = false)
    (h1 : _get_draft_features dm.projectDict dm.name none none .NUMERIC = .ok numericInfo)
    (h2 : _get_draft_features dm.projectDict dm.name none none .CATEGORICAL = .ok catInfo)
    (h3 : alGet? (buildHierDimRoleplays catInfo).2 D = some ⟨D, ""⟩)
    (h4 : alGet? (buildHierDimRoleplays catInfo).1 H = some ⟨H, ""⟩)
    (h5 : (dm.hierarchyInfo.map (fun kv => kv.1)).contains H = true)
    (h6 : get_cube dm.projectDict dm.cubeId = some cube)
    (h7 : (dm.projectDict.dimensions ++ cube.dimensions).find?
        (fun dim => dim.name == D) = some dimD)
    (h8 : ∀ dim ∈ dm.projectDict.dimensions ++ cube.dimensions,
        ∀ h ∈ dim.hierarchy, h.name = H → dim.name = D) :
    ∃ pdoc : PerspectiveDoc,
      _create_perspective dm name (some [D]) (some [H]) none none false false freshId
        = .ok (freshId, { dm.projectDict with
            perspectives := some ((dm.projectDict.perspectives.getD []) ++ [pdoc]) })
      ∧ pdoc.flatDimensions
          = [{ id := dimD.id, refPath := none, flatHierarchyRef := none, visible := false }]
      ∧ (pdoc.flatDimensions.filter (fun n => n.id == dimD.id)).length = 1
      ∧ ∀ n ∈ pdoc.flatDimensions, n.flatHierarchyRef = none := by
  have hcheck : _check_features [H] (dm.hierarchyInfo.map (fun kv => kv.1)) hierarchyErrMsg
      = .ok () := by
    have hmH : (!((dm.hierarchyInfo.map (fun kv => kv.1)).contains H)) = false := by
      rw [h5]
      rfl
    unfold _check_features
    dsimp only
    simp only [List.filter_cons, hmH, Bool.false_eq_true, if_false, List.filter_nil]
    rw [if_neg (show ¬(([] : List String) ≠ []) from fun hcon => hcon rfl)]
  have hfd : (dm.projectDict.dimensions ++ cube.dimensions).find? (fun dim =>
      match alGet? (buildHierDimRoleplays catInfo).2 D with
      | some e => dim.name == e.base
      | none => false) = some dimD := by
    simp only [h3]
    exact h7
  have hdims : hideDims (dm.projectDict.dimensions ++ cube.dimensions)
      (buildHierDimRoleplays catInfo).2 ([], []) [D]
      = .ok ([{ id := dimD.id, refPath := none, flatHierarchyRef := none, visible := false }],
          [D]) := by
    simp only [hideDims, hfd, h3, Option.getD_some, List.nil_append]
    rw [if_neg (show ¬(D ≠ D) from fun hne => hne rfl)]
    rw [h7]
  have hfind : ((dm.projectDict.dimensions ++ cube.dimensions).flatMap
      (fun dim => dim.hierarchy.map (fun h => (dim, h)))).find?
      (fun dh => dh.2.name == H && !([D].contains dh.1.name)) = none := by
    rw [List.find?_eq_none]
    intro dh hdh
    obtain ⟨dim, hdim, hh⟩ := List.mem_flatMap.mp hdh
    obtain ⟨hobj, hhobj, rfl⟩ := List.mem_map.mp hh
    intro hpred
    rw [Bool.and_eq_true] at hpred
    obtain ⟨hn, hc⟩ := hpred
    have hname : hobj.name = H := by simpa using hn
    have hdimname : dim.name = D := h8 dim hdim hobj hhobj hname
    simp [hdimname] at hc
  have hhier : hideOneHier (dm.projectDict.dimensions ++ cube.dimensions)
      (buildHierDimRoleplays catInfo).1 [D]
      ([{ id := dimD.id, refPath := none, flatHierarchyRef := none, visible := false }], []) H
      = .ok ([{ id := dimD.id, refPath := none, flatHierarchyRef := none, visible := false }],
          []) := by
    unfold hideOneHier
    rw [h4]
    dsimp only
    rw [hfind]
  refine ⟨{ cubeRef := dm.cubeId
            id := freshId
            name := name
            calculatedMembers := none
            flatAttributes := none
            flatDimensions := [{ id := dimD.id
                                 refPath := none
                                 flatHierarchyRef := none
                                 visible := false }] }, ?_, rfl, by simp, ?_⟩
  · simp [_create_perspective, hp, h1, h2, hcheck, h6, hdims, hhier, truthyList,
      Bind.bind, Except.bind, Pure.pure, Except.pure, List.foldlM_cons, List.foldlM_nil]
  · intro n hn
    rw [List.mem_singleton] at hn
    rw [hn]

/-- C4 witness: hiding dimension "D" and its hierarchy "H" of the perspective
fixture yields one hidden flat-dimension node and no hierarchy entry. -/
theorem C4_witness :
    ((perspProject.perspectives.getD []).any (fun x => x.name == "p") = false)
    ∧ ∃ pdoc : PerspectiveDoc,
      _create_perspective perspModel "p" (some ["D"]) (some ["H"]) none none false false
          "uuid-1"
        = .ok ("uuid-1", { perspProject with
            perspectives := some ((perspProject.perspectives.getD []) ++ [pdoc]) })
      ∧ pdoc.flatDimensions
          = [{ id := "d1", refPath := none, flatHierarchyRef := none, visible := false }]
      ∧ (pdoc.flatDimensions.filter (fun n => n.id == "d1")).length = 1
      ∧ ∀ n ∈ pdoc.flatDimensions, n.flatHierarchyRef = none := by
  obtain ⟨pdoc, he, hf, hc, hn⟩ := C4_dim_hide_covers_hier perspModel "p" "D" "H" "uuid-1"
    []
    [("City", { caption := "City"
                atscale_type := "Regular"
                description := ""
                hierarchy := some ["H"]
                dimension := some "D"
                folder := [""]
                queryable := some false
                feature_type := "Categorical"
                roleplay_expression := some "{0}"
                roleplay_ref_id := none
                base_name := some "City"
                base_hierarchy := some ["H"]
                base_dimension := some "D"
                secondary_attribute := some false
                expression := none })]
    { id := "c1", name := "m" }
    { id := "d1", name := "D", hierarchy := [{ id := "h1", name := "H", level := [rpFamilyLevel true] }] }
    rfl rfl rfl rfl rfl rfl rfl rfl (by decide)
  exact ⟨rfl, pdoc, he, hf, hc, hn⟩
